import Mathlib

/-!
# gizmo500: the feeder-door controller of `src/main.cpp`

A shallow embedding of the Arduino sketch.  The global variables of the sketch
form the record `State`; everything the sketch reads from the hardware during
one pass of `loop()` (the RTC reading, the four digital lines, and the stop
line as it is read again inside the homing sweep) forms the record `Input`;
every call into a peripheral (serial port, RTC, stepper, display) is recorded
in order as an `Effect`.  Each function of the sketch becomes a function
`State → ... → State × List Effect`.

The C `int` variables are modelled as unbounded `Int`; the `%` of C is
`Int.tmod` (truncating remainder).  Signed overflow, which is undefined in C,
is not modelled: it needs a counter at the top of the `int` range, and the
statements below either start from small counters or do not depend on the
value an overflowing increment would produce.
-/

namespace Gizmo500

/-! ## Data model -/

/-- The `enum Mode` of the sketch, in declaration order (so `ModeDoNothing` is 0). -/
inductive Mode
  | ModeDoNothing
  | ModeDisplayInit
  | ModeInitPos
  | ModeDisplayOpening
  | ModeRunForOpen
  | ModeDisplayClosing
  | ModeRunForClose
  | ModeInitPosAchieved
  | ModeTimeForFood
  | ModeEndOfTimeForFood
  | ModeError
  deriving DecidableEq, Repr

open Mode

/-- Enumerator `ButtonStatusOpenClose` of `enum ButtonStatus`. -/
def ButtonStatusOpenClose : Int := 0
/-- Enumerator `ButtonStatusSetTime` of `enum ButtonStatus`. -/
def ButtonStatusSetTime : Int := 1
/-- Enumerator `ButtonStatusSetAlarm` of `enum ButtonStatus`. -/
def ButtonStatusSetAlarm : Int := 2

def slideDistance : Int := 8600
def MAX_TIMER_COUNT : Int := 50
def SCREEN_BLANK_DELAY : Int := 50
def SCREEN_BLANK_EFFECT_DELAY : Int := 30

/-- Number of iterations of the `for` loop of `handleModeInitPos`. -/
def sweepSteps : Nat := 8000

/-- The three door-status constants used by the sketch (`DoorStatusClosed`,
`DoorStatusopen`, `DoorStatusUnkonwn`, spelled as in the source).  Their
declaration is not part of `main.cpp`, so their integer values are a parameter
of the model. -/
structure DoorStatusDecl where
  DoorStatusClosed : Int
  DoorStatusopen : Int
  DoorStatusUnkonwn : Int
  deriving DecidableEq, Repr

/-- The three door-status constants are pairwise different. -/
def DoorStatusDecl.Distinct (D : DoorStatusDecl) : Prop :=
  D.DoorStatusClosed ≠ D.DoorStatusopen ∧ D.DoorStatusClosed ≠ D.DoorStatusUnkonwn ∧
    D.DoorStatusopen ≠ D.DoorStatusUnkonwn

instance (D : DoorStatusDecl) : Decidable D.Distinct := by
  unfold DoorStatusDecl.Distinct; infer_instance

/-- The global variables of the sketch (lines 28-46). -/
structure State where
  moveClockwise : Bool
  moveStartTime : Nat
  button3Pressed : Bool
  button2Pressed : Bool
  button1Pressed : Bool
  positionKnown : Bool
  showScreen : Bool
  screenBlankDelayCount : Int
  screenBlankEffectDelay : Int
  buttonStatus : Int
  doorStatus : Int
  mode : Mode
  timerCount : Int
  alarmHr : Int
  alarmMin : Int
  clockHr : Int
  clockMin : Int
  reading : Int
  deriving DecidableEq, Repr

/-- The part of an `RtcDateTime` the sketch reads: `Hour()`, `Minute()`, `Second()`. -/
structure RtcDateTime where
  Hour : Nat
  Minute : Nat
  Second : Nat
  deriving DecidableEq, Repr

/-- What one pass of `loop()` reads from the hardware.  A digital line is
`true` for `HIGH` and `false` for `LOW`.  `stopPinSweep k` is the stop line as
read in iteration `k` of the homing sweep. -/
structure Input where
  rtcValid : Bool
  now : RtcDateTime
  buttonState1 : Bool
  buttonState2 : Bool
  buttonState3 : Bool
  stopPinState : Bool
  stopPinSweep : Nat → Bool

/-- Calls into the peripherals, in the order the sketch makes them. -/
inductive Effect
  | serialPrintln (msg : String)
  | rtcSetDateTime (hour minute second : Int)
  | stepperStep (clockwise : Bool) (calls : Nat)
  | stepperMove (clockwise : Bool) (steps : Int)
  | resetStepperPins
  | delay (ms : Nat)
  | printTimeAndAlarm (now : RtcDateTime) (alarmHr alarmMin buttonStatus : Int) (mode : Mode)
  | printRandom
  deriving DecidableEq, Repr

/-- Sequencing of two pieces of the sketch: run `f` on the state left by `r`,
appending its effects. -/
def andThen (r : State × List Effect) (f : State → State × List Effect) :
    State × List Effect :=
  ((f r.1).1, r.2 ++ (f r.1).2)

/-! ## `loop()`, lines 110-137 -/

/-- Lines 118-127 of `loop()`: copy the RTC reading into `clockMin`/`clockHr`,
then the alarm time check. -/
def alarmCheck (s : State) (now : RtcDateTime) : State × List Effect :=
  let s1 := { s with clockMin := (now.Minute : Int), clockHr := (now.Hour : Int) }
  if (s1.mode = ModeDoNothing ∨ s1.mode = ModeError) ∧
      s1.clockHr = s1.alarmHr ∧ s1.clockMin = s1.alarmMin ∧ now.Second = 0 then
    ({ s1 with mode := ModeTimeForFood }, [Effect.serialPrintln "ALARM TRIGGERED"])
  else
    (s1, [])

/-! ## `handleButtons`, lines 140-184 -/

/-- Lines 146-151: button 3 cycles through the button statuses. -/
def button3Block (s : State) (i : Input) : State × List Effect :=
  let s1 := if i.buttonState3 = false then { s with button3Pressed := false } else s
  if i.buttonState3 = true ∧ s1.button3Pressed = false then
    ({ s1 with screenBlankDelayCount := 0,
               buttonStatus := Int.tmod (s1.buttonStatus + 1) 3,
               button3Pressed := true }, [])
  else
    (s1, [])

/-- Lines 153-163: button 2 adds ten minutes to the alarm or one minute to the clock. -/
def button2Block (s : State) (i : Input) : State × List Effect :=
  let s1 := if i.buttonState2 = false then { s with button2Pressed := false } else s
  if i.buttonState2 = true ∧ s1.button2Pressed = false then
    let s2 := { s1 with screenBlankDelayCount := 0 }
    if s2.buttonStatus = ButtonStatusSetAlarm then
      ({ s2 with alarmMin := Int.tmod (s2.alarmMin + 10) 60, button2Pressed := true }, [])
    else if s2.buttonStatus = ButtonStatusSetTime then
      let m := Int.tmod (s2.clockMin + 1) 60
      ({ s2 with clockMin := m, button2Pressed := true },
        [Effect.rtcSetDateTime (i.now.Hour : Int) m 0])
    else
      ({ s2 with button2Pressed := true }, [])
  else
    (s1, [])

/-- Lines 165-179: button 1 adds an hour to the clock or the alarm, or starts a
door sequence. -/
def button1Block (D : DoorStatusDecl) (s : State) (i : Input) : State × List Effect :=
  let s1 := if i.buttonState1 = false then { s with button1Pressed := false } else s
  if i.buttonState1 = true ∧ s1.button1Pressed = false then
    let s2 := { s1 with screenBlankDelayCount := 0 }
    if s2.buttonStatus = ButtonStatusSetTime then
      let h := Int.tmod (s2.clockHr + 1) 24
      ({ s2 with clockHr := h, button1Pressed := true },
        [Effect.rtcSetDateTime h (i.now.Minute : Int) 0])
    else if s2.buttonStatus = ButtonStatusSetAlarm then
      ({ s2 with alarmHr := Int.tmod (s2.alarmHr + 1) 24, button1Pressed := true }, [])
    else if s2.buttonStatus = ButtonStatusOpenClose then
      if s2.mode = ModeDoNothing ∨ s2.mode = ModeError then
        ({ s2 with
            mode := if s2.positionKnown = true then
                      (if s2.doorStatus = D.DoorStatusClosed then ModeDisplayOpening
                       else ModeDisplayClosing)
                    else ModeDisplayInit,
            button1Pressed := true }, [])
      else
        ({ s2 with button1Pressed := true }, [])
    else
      ({ s2 with button1Pressed := true }, [])
  else
    (s1, [])

/-- Lines 181-183: the stop line as sampled at the top of `handleButtons`. -/
def stopPinBlock (s : State) (i : Input) : State × List Effect :=
  if i.stopPinState = true ∧ s.mode = ModeInitPos then
    ({ s with mode := ModeInitPosAchieved }, [])
  else
    (s, [])

/-- The function `handleButtons`: the four blocks in source order. -/
def handleButtons (D : DoorStatusDecl) (s : State) (i : Input) : State × List Effect :=
  andThen (andThen (andThen (button3Block s i) (fun t => button2Block t i))
    (fun t => button1Block D t i)) (fun t => stopPinBlock t i)

/-! ## Mode handlers, lines 267-302 -/

/-- The `for` loop of `handleModeInitPos` with `n` iterations left, at
iteration `k`: returns the number of `stepper.step` calls made and whether the
stop line was read `HIGH` (the `break`). -/
def sweepFrom (stopPin : Nat → Bool) : Nat → Nat → Nat × Bool
  | 0, _ => (0, false)
  | n + 1, k =>
    if stopPin k = true then (1, true)
    else ((sweepFrom stopPin n (k + 1)).1 + 1, (sweepFrom stopPin n (k + 1)).2)

def handleModeInitPos (s : State) (i : Input) : State × List Effect :=
  let r := sweepFrom i.stopPinSweep sweepSteps 0
  ({ s with mode := if r.2 = true then ModeInitPosAchieved else s.mode,
            timerCount := s.timerCount + 1 },
    [Effect.stepperStep s.moveClockwise r.1])

def handleModeRunForOpen (D : DoorStatusDecl) (s : State) : State × List Effect :=
  ({ s with mode := ModeDoNothing, doorStatus := D.DoorStatusopen },
    [Effect.stepperMove (!s.moveClockwise) slideDistance, Effect.resetStepperPins])

def handleModeRunForClose (D : DoorStatusDecl) (s : State) : State × List Effect :=
  ({ s with mode := ModeDoNothing, doorStatus := D.DoorStatusClosed },
    [Effect.stepperMove s.moveClockwise slideDistance, Effect.resetStepperPins])

def handleModeDisplayOpening (D : DoorStatusDecl) (s : State) : State × List Effect :=
  if s.doorStatus = D.DoorStatusClosed then
    ({ s with mode := ModeRunForOpen, doorStatus := D.DoorStatusUnkonwn }, [])
  else
    (s, [])

def handleModeDisplayClosing (D : DoorStatusDecl) (s : State) : State × List Effect :=
  ({ s with mode := ModeRunForClose, doorStatus := D.DoorStatusUnkonwn }, [])

/-! ## `handleModes`, lines 187-222 -/

/-- The `switch (mode)` of `handleModes`, lines 188-217. -/
def modeSwitch (D : DoorStatusDecl) (s : State) (i : Input) : State × List Effect :=
  match s.mode with
  | ModeInitPos => handleModeInitPos s i
  | ModeRunForOpen => handleModeRunForOpen D s
  | ModeRunForClose => handleModeRunForClose D s
  | ModeDisplayOpening => handleModeDisplayOpening D s
  | ModeDisplayClosing => handleModeDisplayClosing D s
  | ModeInitPosAchieved =>
    ({ s with positionKnown := true, doorStatus := D.DoorStatusClosed,
              mode := ModeDisplayOpening, timerCount := 0 }, [])
  | ModeTimeForFood =>
    ({ s with mode := ModeDisplayOpening, buttonStatus := ButtonStatusOpenClose },
      [Effect.delay 2000])
  | _ => (s, [])

/-- Lines 219-221: the budget check that closes `handleModes`. -/
def timerCheck (s : State) : State × List Effect :=
  if s.timerCount > MAX_TIMER_COUNT then ({ s with mode := ModeError }, []) else (s, [])

def handleModes (D : DoorStatusDecl) (s : State) (i : Input) : State × List Effect :=
  andThen (modeSwitch D s i) timerCheck

/-! ## `updateDisplay`, lines 225-264 -/

def updateDisplay (s : State) (i : Input) : State × List Effect :=
  let s1 :=
    if s.screenBlankDelayCount < SCREEN_BLANK_DELAY then
      { s with screenBlankDelayCount := s.screenBlankDelayCount + 1, showScreen := true }
    else
      { s with showScreen := false }
  if s1.showScreen = true then
    (s1, [Effect.printTimeAndAlarm i.now s1.alarmHr s1.alarmMin s1.buttonStatus s1.mode])
  else
    let s2 := { s1 with screenBlankEffectDelay := s1.screenBlankEffectDelay + 1 }
    if s2.screenBlankEffectDelay = SCREEN_BLANK_EFFECT_DELAY then
      ({ s2 with screenBlankEffectDelay := 0 }, [Effect.printRandom])
    else
      (s2, [])

/-! ## The control cycle -/

/-- Lines 112-114 of `loop()`: the RTC validity is logged, never acted upon. -/
def rtcValidCheck (s : State) (i : Input) : State × List Effect :=
  if i.rtcValid = false then
    (s, [Effect.serialPrintln "RTC lost confidence in the DateTime!"])
  else
    (s, [])

/-- One pass of `loop()`. -/
def loop (D : DoorStatusDecl) (s : State) (i : Input) : State × List Effect :=
  andThen (andThen (andThen (andThen (rtcValidCheck s i) (fun t => alarmCheck t i.now))
    (fun t => handleButtons D t i)) (fun t => handleModes D t i)) (fun t => updateDisplay t i)

/-- State after one pass of `loop()`. -/
def cycle (D : DoorStatusDecl) (s : State) (i : Input) : State := (loop D s i).1

/-- State before pass number `n` (counted from 0) when pass `k` reads `inputs k`. -/
def run (D : DoorStatusDecl) (s : State) (inputs : Nat → Input) : Nat → State
  | 0 => s
  | n + 1 => cycle D (run D s inputs n) (inputs n)

/-- State on entry to `handleModes`: after the alarm check and `handleButtons`. -/
def beforeModes (D : DoorStatusDecl) (s : State) (i : Input) : State :=
  (handleButtons D (alarmCheck s i.now).1 i).1

/-! ## Power-on state -/

/-- The global variables as initialised at lines 29-46 (`int mode = 0` is
`ModeDoNothing`, the first enumerator). -/
def initState : State :=
  { moveClockwise := true, moveStartTime := 0,
    button3Pressed := false, button2Pressed := false, button1Pressed := false,
    positionKnown := false, showScreen := true,
    screenBlankDelayCount := 0, screenBlankEffectDelay := 0,
    buttonStatus := 0, doorStatus := 0, mode := ModeDoNothing,
    timerCount := 0, alarmHr := 0, alarmMin := 0, clockHr := 0, clockMin := 0,
    reading := 0 }

/-- The function `setup` (lines 81-108) on the globals: it assigns only
`moveStartTime = millis()`.  Its calls into the peripherals (`pinMode`,
`Serial`, `u8g2`, `Rtc`, `stepper.setRpm`) assign no global and are left out. -/
def setup (millis : Nat) (s : State) : State :=
  { s with moveStartTime := millis }

/-- The state in which the first pass of `loop()` starts: the initialisers,
then `setup`. -/
def powerOn (millis : Nat) : State := setup millis initState

/-! ## Predicates used in the statements -/

/-- The alarm is due for state `s` and clock reading `now`: the clock hour and
minute equal the alarm hour and minute, the second is 0, and the mode is
`ModeDoNothing` or `ModeError`. -/
def alarmDue (s : State) (now : RtcDateTime) : Prop :=
  (now.Hour : Int) = s.alarmHr ∧ (now.Minute : Int) = s.alarmMin ∧ now.Second = 0 ∧
    (s.mode = ModeDoNothing ∨ s.mode = ModeError)

instance (s : State) (now : RtcDateTime) : Decidable (alarmDue s now) := by
  unfold alarmDue; infer_instance

/-- Guard of line 166: button 1 reads `HIGH` and its latch is clear. -/
def button1Edge (s : State) (i : Input) : Prop :=
  i.buttonState1 = true ∧ s.button1Pressed = false

/-- Guard of line 154: button 2 reads `HIGH` and its latch is clear. -/
def button2Edge (s : State) (i : Input) : Prop :=
  i.buttonState2 = true ∧ s.button2Pressed = false

/-- Guard of line 147: button 3 reads `HIGH` and its latch is clear. -/
def button3Edge (s : State) (i : Input) : Prop :=
  i.buttonState3 = true ∧ s.button3Pressed = false

instance (s : State) (i : Input) : Decidable (button1Edge s i) := by
  unfold button1Edge; infer_instance

instance (s : State) (i : Input) : Decidable (button2Edge s i) := by
  unfold button2Edge; infer_instance

instance (s : State) (i : Input) : Decidable (button3Edge s i) := by
  unfold button3Edge; infer_instance

/-- Focus seen by the blocks of buttons 2 and 1: the button status after the
button-3 block. -/
def focusAfter3 (s : State) (i : Input) : Int :=
  if button3Edge s i then Int.tmod (s.buttonStatus + 1) 3 else s.buttonStatus

/-- Right-hand side of the assignment of line 175. -/
def doorCommandTarget (D : DoorStatusDecl) (s : State) : Mode :=
  if s.positionKnown = true then
    (if s.doorStatus = D.DoorStatusClosed then ModeDisplayOpening else ModeDisplayClosing)
  else ModeDisplayInit

/-- The assignment of line 175 is executed: button 1 has a rising edge, the
focus left by the button-3 block is `ButtonStatusOpenClose`, and the mode is
`ModeDoNothing` or `ModeError`. -/
def doorCommandTaken (s : State) (i : Input) : Prop :=
  button1Edge s i ∧ focusAfter3 s i = ButtonStatusOpenClose ∧
    (s.mode = ModeDoNothing ∨ s.mode = ModeError)

instance (s : State) (i : Input) : Decidable (doorCommandTaken s i) := by
  unfold doorCommandTaken; infer_instance

/-- The three push buttons. -/
inductive Button
  | button1
  | button2
  | button3
  deriving DecidableEq, Repr

/-- The level read on the button's line in a pass (`true` is `HIGH`). -/
def Button.line : Button → Input → Bool
  | Button.button1, i => i.buttonState1
  | Button.button2, i => i.buttonState2
  | Button.button3, i => i.buttonState3

/-- The button's latch (`button1Pressed`, `button2Pressed`, `button3Pressed`). -/
def Button.latch : Button → State → Bool
  | Button.button1, s => s.button1Pressed
  | Button.button2, s => s.button2Pressed
  | Button.button3, s => s.button3Pressed

/-- The button's action is performed in the pass that starts in state `s` and
reads `i`: the guard of its `if` (line 166, 154 or 147) holds, so the body with
the focus advance, the increment or the door command is run. -/
def Button.acts (b : Button) (s : State) (i : Input) : Prop :=
  b.line i = true ∧ b.latch s = false

instance (b : Button) (s : State) (i : Input) : Decidable (b.acts s i) := by
  unfold Button.acts; infer_instance

/-- A door-toggle sequence is started by button 1 in the pass that begins in
state `s` and reads `i`: the assignment of line 175 is executed in this pass.
The state that `handleButtons` sees is the one left by the alarm check, so this
says that button 1 has a rising edge, that the focus seen by its block is
`DoorCommand`, and that the mode left by the alarm check is `ModeDoNothing` or
`ModeError`. -/
def toggleStarts (s : State) (i : Input) : Prop :=
  doorCommandTaken (alarmCheck s i.now).1 i

instance (s : State) (i : Input) : Decidable (toggleStarts s i) := by
  unfold toggleStarts; infer_instance

/-- The times written to the RTC by `Rtc.SetDateTime`, in order, as
(hour, minute, second). -/
def rtcWrites : List Effect → List (Int × Int × Int)
  | [] => []
  | Effect.rtcSetDateTime h m sec :: es => (h, m, sec) :: rtcWrites es
  | _ :: es => rtcWrites es

/-- The effect is a command to the stepper: `stepper.step`, `stepper.move` or
the release of its pins. -/
def Effect.isActuatorCommand : Effect → Bool
  | Effect.stepperStep _ _ => true
  | Effect.stepperMove _ _ => true
  | Effect.resetStepperPins => true
  | _ => false

/-- The commands to the stepper among the effects, in order. -/
def actuatorCommands (es : List Effect) : List Effect :=
  es.filter Effect.isActuatorCommand

/-- State before call number `n` (counted from 0) of `handleButtons` when the
button-handling step alone is run again and again, call `k` reading
`inputs k`. -/
def buttonsRun (D : DoorStatusDecl) (s : State) (inputs : Nat → Input) : Nat → State
  | 0 => s
  | n + 1 => (handleButtons D (buttonsRun D s inputs n) (inputs n)).1

/-- Number of button-3 presses (rising edges, guard of line 147) among the
first `n` calls of `buttonsRun`. -/
def button3Presses (D : DoorStatusDecl) (s : State) (inputs : Nat → Input) : Nat → Nat
  | 0 => 0
  | n + 1 => button3Presses D s inputs n +
      (if button3Edge (buttonsRun D s inputs n) (inputs n) then 1 else 0)

/-- The alarm time is a wall-clock pair: hour 0-23, minute 0-59. -/
def alarmValid (s : State) : Prop :=
  0 ≤ s.alarmHr ∧ s.alarmHr ≤ 23 ∧ 0 ≤ s.alarmMin ∧ s.alarmMin ≤ 59

instance (s : State) : Decidable (alarmValid s) := by
  unfold alarmValid; infer_instance

/-- Body of the `if` of button 3, lines 148-150: the focus advance. -/
def button3Body (s : State) : State × List Effect :=
  ({ s with screenBlankDelayCount := 0,
            buttonStatus := Int.tmod (s.buttonStatus + 1) 3,
            button3Pressed := true }, [])

/-- Body of the `if` of button 2, lines 155-162: the minor increment. -/
def button2Body (s : State) (i : Input) : State × List Effect :=
  let s2 := { s with screenBlankDelayCount := 0 }
  if s2.buttonStatus = ButtonStatusSetAlarm then
    ({ s2 with alarmMin := Int.tmod (s2.alarmMin + 10) 60, button2Pressed := true }, [])
  else if s2.buttonStatus = ButtonStatusSetTime then
    let m := Int.tmod (s2.clockMin + 1) 60
    ({ s2 with clockMin := m, button2Pressed := true },
      [Effect.rtcSetDateTime (i.now.Hour : Int) m 0])
  else
    ({ s2 with button2Pressed := true }, [])

/-- Body of the `if` of button 1, lines 167-178: the major increment or the
door command. -/
def button1Body (D : DoorStatusDecl) (s : State) (i : Input) : State × List Effect :=
  let s2 := { s with screenBlankDelayCount := 0 }
  if s2.buttonStatus = ButtonStatusSetTime then
    let h := Int.tmod (s2.clockHr + 1) 24
    ({ s2 with clockHr := h, button1Pressed := true },
      [Effect.rtcSetDateTime h (i.now.Minute : Int) 0])
  else if s2.buttonStatus = ButtonStatusSetAlarm then
    ({ s2 with alarmHr := Int.tmod (s2.alarmHr + 1) 24, button1Pressed := true }, [])
  else if s2.buttonStatus = ButtonStatusOpenClose then
    if s2.mode = ModeDoNothing ∨ s2.mode = ModeError then
      ({ s2 with
          mode := if s2.positionKnown = true then
                    (if s2.doorStatus = D.DoorStatusClosed then ModeDisplayOpening
                     else ModeDisplayClosing)
                  else ModeDisplayInit,
          button1Pressed := true }, [])
    else
      ({ s2 with button1Pressed := true }, [])
  else
    ({ s2 with button1Pressed := true }, [])

/-- The button's block of `handleButtons` (lines 165-179, 153-163, 146-151). -/
def Button.block (D : DoorStatusDecl) : Button → State → Input → State × List Effect
  | Button.button1, s, i => button1Block D s i
  | Button.button2, s, i => button2Block s i
  | Button.button3, s, i => button3Block s i

/-- The button's action: the body of the `if` of its block. -/
def Button.body (D : DoorStatusDecl) : Button → State → Input → State × List Effect
  | Button.button1, s, i => button1Body D s i
  | Button.button2, s, i => button2Body s i
  | Button.button3, s, _ => button3Body s

/-- The state in which the button's block starts, in the pass that begins in
state `s` and reads `i`: button 3 comes right after the alarm check, button 2
after the block of button 3, button 1 after the block of button 2. -/
def Button.entry : Button → State → Input → State
  | Button.button3, s, i => (alarmCheck s i.now).1
  | Button.button2, s, i => (button3Block (alarmCheck s i.now).1 i).1
  | Button.button1, s, i => (button2Block (button3Block (alarmCheck s i.now).1 i).1 i).1

/-- The state with the button's latch set to `v` and nothing else changed. -/
def Button.setLatch : Button → State → Bool → State
  | Button.button1, s, v => { s with button1Pressed := v }
  | Button.button2, s, v => { s with button2Pressed := v }
  | Button.button3, s, v => { s with button3Pressed := v }

/-! ## Sample states and inputs for concrete runs -/

/-- A sample choice of the door-status constants, used for concrete runs. -/
def sampleDecl : DoorStatusDecl :=
  { DoorStatusClosed := 0, DoorStatusopen := 1, DoorStatusUnkonwn := 2 }

/-- A sample input: valid clock reading `h:m:sec`, all four lines `LOW`. -/
def quietInput (h m sec : Nat) : Input :=
  { rtcValid := true, now := { Hour := h, Minute := m, Second := sec },
    buttonState1 := false, buttonState2 := false, buttonState3 := false,
    stopPinState := false, stopPinSweep := fun _ => false }

/-- Focus `DoorCommand`, mode `ModeDoNothing`, position known, door closed
(for `sampleDecl`), all latches clear. -/
def idleClosedState : State :=
  { initState with positionKnown := true, doorStatus := sampleDecl.DoorStatusClosed }

/-- Buttons 1 and 3 both read `HIGH`. -/
def press13Input : Input :=
  { quietInput 12 0 30 with buttonState1 := true, buttonState3 := true }

/-- Only button 1 reads `HIGH`. -/
def press1Input : Input :=
  { quietInput 12 0 30 with buttonState1 := true }

/-- Pass 0 reads all lines `LOW`; every later pass reads button 1 `HIGH`. -/
def holdButton1 (k : Nat) : Input :=
  if k = 0 then quietInput 12 0 30 else press1Input

/-- Mode `ModeDisplayInit`, everything else as at power-on. -/
def displayInitState : State :=
  { initState with mode := ModeDisplayInit }

/-- Mode `ModeInitPos` with the step counter at `MAX_TIMER_COUNT`. -/
def lastSweepState : State :=
  { initState with mode := ModeInitPos, timerCount := MAX_TIMER_COUNT }

/-- Mode `ModeInitPos` with the step counter at 0. -/
def homingStartState : State :=
  { initState with mode := ModeInitPos }

/-- Every pass reads all lines `LOW`, also inside the sweep. -/
def quietRun (_ : Nat) : Input := quietInput 12 0 30

/-- The state in which a homing timeout leaves the controller: mode
`ModeError`, step counter `MAX_TIMER_COUNT + 1`, position unknown, focus
`DoorCommand`. -/
def timedOutState : State :=
  { initState with mode := ModeError, timerCount := MAX_TIMER_COUNT + 1 }

/-- Mode `ModeDoNothing`, alarm at 08:00, position known, door open (for
`sampleDecl`), step counter 0. -/
def idleOpenAlarm8State : State :=
  { initState with alarmHr := 8, positionKnown := true,
                   doorStatus := sampleDecl.DoorStatusopen }

/-- Mode `ModeDoNothing`, alarm at 08:00, position known, door closed (for
`sampleDecl`), step counter 0. -/
def idleClosedAlarm8State : State :=
  { initState with alarmHr := 8, positionKnown := true,
                   doorStatus := sampleDecl.DoorStatusClosed }

/-- Pass 0 reads the clock at 08:00:00, pass `k` at 08:00 and `2 k` seconds; no
button is pressed and the stop line is `LOW`. -/
def alarmRun (k : Nat) : Input := quietInput 8 0 (2 * k)

/-- Button 1 is `HIGH` in the even passes and `LOW` in the odd ones; the clock
reads 12:00:30 throughout. -/
def toggleRun (k : Nat) : Input :=
  if k % 2 = 0 then press1Input else quietInput 12 0 30

/-- Only button 3 reads `HIGH`. -/
def press3Input : Input :=
  { quietInput 12 0 30 with buttonState3 := true }

/-- Button 3 is `HIGH` in the even calls and `LOW` in the odd ones: one press
every two calls. -/
def press3Run (k : Nat) : Input :=
  if k % 2 = 0 then press3Input else quietInput 12 0 30

/-- Focus `SetAlarm`, alarm at 00:55, everything else as at power-on. -/
def setAlarmState : State :=
  { initState with buttonStatus := ButtonStatusSetAlarm, alarmMin := 55 }

/-- Focus `SetClock`, everything else as at power-on. -/
def setClockState : State :=
  { initState with buttonStatus := ButtonStatusSetTime }

/-- Only button 2 reads `HIGH`; the clock reads 12:59:30. -/
def press2Input : Input :=
  { quietInput 12 59 30 with buttonState2 := true }

/-- Buttons 1 and 2 both read `HIGH`, button 3 `LOW`; the clock reads 12:00:30. -/
def press12Input : Input :=
  { quietInput 12 0 30 with buttonState1 := true, buttonState2 := true }

/-- Mode `ModeRunForOpen`, everything else as at power-on. -/
def runForOpenState : State :=
  { initState with mode := ModeRunForOpen }

/-- Mode `ModeDisplayOpening` with the door open (for `sampleDecl`), position
known, step counter 0, focus `DoorCommand`: the state one pass after the alarm
has fired with the door open. -/
def trapState : State :=
  { initState with mode := ModeDisplayOpening, positionKnown := true,
                   doorStatus := sampleDecl.DoorStatusopen }

/-! ## The blocks in closed form

Each piece of the sketch is rewritten as a single record update whose fields
carry the case distinctions; the later proofs project fields out of these. -/

theorem button3Block_fst (s : State) (i : Input) :
    (button3Block s i).1 =
      { s with
        button3Pressed := i.buttonState3,
        screenBlankDelayCount := if button3Edge s i then 0 else s.screenBlankDelayCount,
        buttonStatus :=
          if button3Edge s i then Int.tmod (s.buttonStatus + 1) 3 else s.buttonStatus } := by
  rcases s with ⟨mc, mst, b3, b2, b1, pk, sh, sbd, sbe, bs, ds, m, tc, ah, am, ch, cm, rd⟩
  cases h : i.buttonState3 <;> cases b3 <;> simp [button3Block, button3Edge, h]

theorem button2Block_fst (s : State) (i : Input) :
    (button2Block s i).1 =
      { s with
        button2Pressed := i.buttonState2,
        screenBlankDelayCount := if button2Edge s i then 0 else s.screenBlankDelayCount,
        alarmMin :=
          if button2Edge s i ∧ s.buttonStatus = ButtonStatusSetAlarm then
            Int.tmod (s.alarmMin + 10) 60
          else s.alarmMin,
        clockMin :=
          if button2Edge s i ∧ s.buttonStatus = ButtonStatusSetTime then
            Int.tmod (s.clockMin + 1) 60
          else s.clockMin } := by
  rcases s with ⟨mc, mst, b3, b2, b1, pk, sh, sbd, sbe, bs, ds, m, tc, ah, am, ch, cm, rd⟩
  cases h : i.buttonState2 <;> cases b2 <;>
    simp [button2Block, button2Edge, h, ButtonStatusSetAlarm, ButtonStatusSetTime]
  by_cases h2 : bs = 2
  · simp [h2]
  · by_cases h1 : bs = 1 <;> simp [h1, h2]

theorem button1Block_fst (D : DoorStatusDecl) (s : State) (i : Input) :
    (button1Block D s i).1 =
      { s with
        button1Pressed := i.buttonState1,
        screenBlankDelayCount := if button1Edge s i then 0 else s.screenBlankDelayCount,
        clockHr :=
          if button1Edge s i ∧ s.buttonStatus = ButtonStatusSetTime then
            Int.tmod (s.clockHr + 1) 24
          else s.clockHr,
        alarmHr :=
          if button1Edge s i ∧ s.buttonStatus = ButtonStatusSetAlarm then
            Int.tmod (s.alarmHr + 1) 24
          else s.alarmHr,
        mode :=
          if button1Edge s i ∧ s.buttonStatus = ButtonStatusOpenClose ∧
              (s.mode = ModeDoNothing ∨ s.mode = ModeError) then
            (if s.positionKnown = true then
              (if s.doorStatus = D.DoorStatusClosed then ModeDisplayOpening
               else ModeDisplayClosing)
             else ModeDisplayInit)
          else s.mode } := by
  rcases s with ⟨mc, mst, b3, b2, b1, pk, sh, sbd, sbe, bs, ds, m, tc, ah, am, ch, cm, rd⟩
  cases h : i.buttonState1 <;> cases b1 <;>
    simp [button1Block, button1Edge, h, ButtonStatusSetAlarm, ButtonStatusSetTime,
      ButtonStatusOpenClose]
  by_cases h1 : bs = 1
  · simp [h1]
  · by_cases h2 : bs = 2
    · simp [h2]
    · by_cases h0 : bs = 0
      · by_cases hm : m = ModeDoNothing ∨ m = ModeError <;> simp [h0, hm]
      · simp [h0, h1, h2]

theorem stopPinBlock_fst (s : State) (i : Input) :
    (stopPinBlock s i).1 =
      { s with
        mode := if i.stopPinState = true ∧ s.mode = ModeInitPos then ModeInitPosAchieved
                else s.mode } := by
  unfold stopPinBlock
  split_ifs <;> rfl

theorem alarmCheck_fst (s : State) (now : RtcDateTime) :
    (alarmCheck s now).1 =
      { s with
        clockMin := (now.Minute : Int),
        clockHr := (now.Hour : Int),
        mode :=
          if (s.mode = ModeDoNothing ∨ s.mode = ModeError) ∧ (now.Hour : Int) = s.alarmHr ∧
              (now.Minute : Int) = s.alarmMin ∧ now.Second = 0 then ModeTimeForFood
          else s.mode } := by
  by_cases h : (s.mode = ModeDoNothing ∨ s.mode = ModeError) ∧ (now.Hour : Int) = s.alarmHr ∧
      (now.Minute : Int) = s.alarmMin ∧ now.Second = 0 <;> simp [alarmCheck, h]

theorem timerCheck_fst (s : State) :
    (timerCheck s).1 =
      { s with mode := if s.timerCount > MAX_TIMER_COUNT then ModeError else s.mode } := by
  unfold timerCheck
  split_ifs <;> rfl

theorem rtcValidCheck_fst (s : State) (i : Input) : (rtcValidCheck s i).1 = s := by
  unfold rtcValidCheck
  split_ifs <;> rfl

theorem updateDisplay_fst (s : State) (i : Input) :
    (updateDisplay s i).1 =
      { s with
        screenBlankDelayCount :=
          if s.screenBlankDelayCount < SCREEN_BLANK_DELAY then s.screenBlankDelayCount + 1
          else s.screenBlankDelayCount,
        showScreen := decide (s.screenBlankDelayCount < SCREEN_BLANK_DELAY),
        screenBlankEffectDelay :=
          if s.screenBlankDelayCount < SCREEN_BLANK_DELAY then s.screenBlankEffectDelay
          else if s.screenBlankEffectDelay + 1 = SCREEN_BLANK_EFFECT_DELAY then 0
          else s.screenBlankEffectDelay + 1 } := by
  rcases s with ⟨mc, mst, b3, b2, b1, pk, sh, sbd, sbe, bs, ds, m, tc, ah, am, ch, cm, rd⟩
  by_cases h : sbd < SCREEN_BLANK_DELAY
  · simp [updateDisplay, h]
  · by_cases h2 : sbe + 1 = SCREEN_BLANK_EFFECT_DELAY <;> simp [updateDisplay, h, h2]

theorem doorCommandTarget_ne_initPos (D : DoorStatusDecl) (s : State) :
    doorCommandTarget D s ≠ ModeInitPos := by
  unfold doorCommandTarget
  split_ifs <;> simp

theorem handleButtons_mode (D : DoorStatusDecl) (s : State) (i : Input) :
    (handleButtons D s i).1.mode =
      (if doorCommandTaken s i then doorCommandTarget D s
       else if i.stopPinState = true ∧ s.mode = ModeInitPos then ModeInitPosAchieved
       else s.mode) := by
  simp only [handleButtons, andThen, button3Block_fst, button2Block_fst, button1Block_fst,
    stopPinBlock_fst, button1Edge, focusAfter3, doorCommandTaken]
  have hne := doorCommandTarget_ne_initPos D s
  unfold doorCommandTarget at hne ⊢
  by_cases hc : (i.buttonState1 = true ∧ s.button1Pressed = false) ∧
      (if button3Edge s i then (s.buttonStatus + 1).tmod 3 else s.buttonStatus) =
        ButtonStatusOpenClose ∧ (s.mode = ModeDoNothing ∨ s.mode = ModeError)
  · simp only [hc, and_self, if_true]
    simp [hne]
  · simp only [hc, if_false]

theorem handleButtons_button1Pressed (D : DoorStatusDecl) (s : State) (i : Input) :
    (handleButtons D s i).1.button1Pressed = i.buttonState1 := by
  simp only [handleButtons, andThen, button3Block_fst, button2Block_fst, button1Block_fst,
    stopPinBlock_fst]

theorem handleButtons_button2Pressed (D : DoorStatusDecl) (s : State) (i : Input) :
    (handleButtons D s i).1.button2Pressed = i.buttonState2 := by
  simp only [handleButtons, andThen, button3Block_fst, button2Block_fst, button1Block_fst,
    stopPinBlock_fst]

theorem handleButtons_button3Pressed (D : DoorStatusDecl) (s : State) (i : Input) :
    (handleButtons D s i).1.button3Pressed = i.buttonState3 := by
  simp only [handleButtons, andThen, button3Block_fst, button2Block_fst, button1Block_fst,
    stopPinBlock_fst]

theorem handleButtons_buttonStatus (D : DoorStatusDecl) (s : State) (i : Input) :
    (handleButtons D s i).1.buttonStatus = focusAfter3 s i := by
  simp only [handleButtons, andThen, button3Block_fst, button2Block_fst, button1Block_fst,
    stopPinBlock_fst, focusAfter3]

theorem handleButtons_positionKnown (D : DoorStatusDecl) (s : State) (i : Input) :
    (handleButtons D s i).1.positionKnown = s.positionKnown := by
  simp only [handleButtons, andThen, button3Block_fst, button2Block_fst, button1Block_fst,
    stopPinBlock_fst]

theorem handleButtons_doorStatus (D : DoorStatusDecl) (s : State) (i : Input) :
    (handleButtons D s i).1.doorStatus = s.doorStatus := by
  simp only [handleButtons, andThen, button3Block_fst, button2Block_fst, button1Block_fst,
    stopPinBlock_fst]

theorem handleButtons_timerCount (D : DoorStatusDecl) (s : State) (i : Input) :
    (handleButtons D s i).1.timerCount = s.timerCount := by
  simp only [handleButtons, andThen, button3Block_fst, button2Block_fst, button1Block_fst,
    stopPinBlock_fst]

theorem handleButtons_moveClockwise (D : DoorStatusDecl) (s : State) (i : Input) :
    (handleButtons D s i).1.moveClockwise = s.moveClockwise := by
  simp only [handleButtons, andThen, button3Block_fst, button2Block_fst, button1Block_fst,
    stopPinBlock_fst]

/-! ## The switch of `handleModes`, mode by mode -/

theorem modeSwitch_initPos (D : DoorStatusDecl) (s : State) (i : Input)
    (h : s.mode = ModeInitPos) : modeSwitch D s i = handleModeInitPos s i := by
  simp [modeSwitch, h]

theorem modeSwitch_runForOpen (D : DoorStatusDecl) (s : State) (i : Input)
    (h : s.mode = ModeRunForOpen) : modeSwitch D s i = handleModeRunForOpen D s := by
  simp [modeSwitch, h]

theorem modeSwitch_runForClose (D : DoorStatusDecl) (s : State) (i : Input)
    (h : s.mode = ModeRunForClose) : modeSwitch D s i = handleModeRunForClose D s := by
  simp [modeSwitch, h]

theorem modeSwitch_displayOpening (D : DoorStatusDecl) (s : State) (i : Input)
    (h : s.mode = ModeDisplayOpening) : modeSwitch D s i = handleModeDisplayOpening D s := by
  simp [modeSwitch, h]

theorem modeSwitch_displayClosing (D : DoorStatusDecl) (s : State) (i : Input)
    (h : s.mode = ModeDisplayClosing) : modeSwitch D s i = handleModeDisplayClosing D s := by
  simp [modeSwitch, h]

theorem modeSwitch_timeForFood (D : DoorStatusDecl) (s : State) (i : Input)
    (h : s.mode = ModeTimeForFood) :
    modeSwitch D s i =
      ({ s with mode := ModeDisplayOpening, buttonStatus := ButtonStatusOpenClose },
        [Effect.delay 2000]) := by
  simp [modeSwitch, h]

/-- The `default` branch: the four modes without a `case`. -/
theorem modeSwitch_default (D : DoorStatusDecl) (s : State) (i : Input)
    (h : s.mode = ModeDoNothing ∨ s.mode = ModeDisplayInit ∨ s.mode = ModeEndOfTimeForFood ∨
      s.mode = ModeError) : modeSwitch D s i = (s, []) := by
  rcases h with h | h | h | h <;> simp [modeSwitch, h]

/-! ## One pass of `loop()` -/

theorem cycle_eq (D : DoorStatusDecl) (s : State) (i : Input) :
    cycle D s i = (updateDisplay (handleModes D (beforeModes D s i) i).1 i).1 := by
  simp only [cycle, loop, andThen, rtcValidCheck_fst, beforeModes]

theorem beforeModes_mode (D : DoorStatusDecl) (s : State) (i : Input) :
    (beforeModes D s i).mode =
      (if alarmDue s i.now then ModeTimeForFood
       else if doorCommandTaken s i then doorCommandTarget D s
       else if i.stopPinState = true ∧ s.mode = ModeInitPos then ModeInitPosAchieved
       else s.mode) := by
  simp only [beforeModes, handleButtons_mode, alarmCheck_fst, doorCommandTaken, button1Edge,
    focusAfter3, button3Edge, doorCommandTarget, alarmDue]
  by_cases ha : (s.mode = ModeDoNothing ∨ s.mode = ModeError) ∧ (i.now.Hour : Int) = s.alarmHr ∧
      (i.now.Minute : Int) = s.alarmMin ∧ i.now.Second = 0
  · have ha2 : (i.now.Hour : Int) = s.alarmHr ∧ (i.now.Minute : Int) = s.alarmMin ∧
        i.now.Second = 0 ∧ (s.mode = ModeDoNothing ∨ s.mode = ModeError) :=
      ⟨ha.2.1, ha.2.2.1, ha.2.2.2, ha.1⟩
    simp [ha, ha2]
  · have ha2 : ¬ ((i.now.Hour : Int) = s.alarmHr ∧ (i.now.Minute : Int) = s.alarmMin ∧
        i.now.Second = 0 ∧ (s.mode = ModeDoNothing ∨ s.mode = ModeError)) :=
      fun g => ha ⟨g.2.2.2, g.1, g.2.1, g.2.2.1⟩
    simp only [ha, ha2, if_false]

theorem beforeModes_timerCount (D : DoorStatusDecl) (s : State) (i : Input) :
    (beforeModes D s i).timerCount = s.timerCount := by
  simp only [beforeModes, handleButtons_timerCount, alarmCheck_fst]

theorem beforeModes_positionKnown (D : DoorStatusDecl) (s : State) (i : Input) :
    (beforeModes D s i).positionKnown = s.positionKnown := by
  simp only [beforeModes, handleButtons_positionKnown, alarmCheck_fst]

theorem beforeModes_doorStatus (D : DoorStatusDecl) (s : State) (i : Input) :
    (beforeModes D s i).doorStatus = s.doorStatus := by
  simp only [beforeModes, handleButtons_doorStatus, alarmCheck_fst]

theorem beforeModes_moveClockwise (D : DoorStatusDecl) (s : State) (i : Input) :
    (beforeModes D s i).moveClockwise = s.moveClockwise := by
  simp only [beforeModes, handleButtons_moveClockwise, alarmCheck_fst]

theorem beforeModes_button1Pressed (D : DoorStatusDecl) (s : State) (i : Input) :
    (beforeModes D s i).button1Pressed = i.buttonState1 := by
  simp only [beforeModes, handleButtons_button1Pressed]

theorem beforeModes_button2Pressed (D : DoorStatusDecl) (s : State) (i : Input) :
    (beforeModes D s i).button2Pressed = i.buttonState2 := by
  simp only [beforeModes, handleButtons_button2Pressed]

theorem beforeModes_button3Pressed (D : DoorStatusDecl) (s : State) (i : Input) :
    (beforeModes D s i).button3Pressed = i.buttonState3 := by
  simp only [beforeModes, handleButtons_button3Pressed]

theorem beforeModes_buttonStatus (D : DoorStatusDecl) (s : State) (i : Input) :
    (beforeModes D s i).buttonStatus = focusAfter3 s i := by
  simp only [beforeModes, handleButtons_buttonStatus, alarmCheck_fst, focusAfter3, button3Edge]

/-- The mode at the end of a pass: the budget check applied to what the switch
left. -/
theorem cycle_mode (D : DoorStatusDecl) (s : State) (i : Input) :
    (cycle D s i).mode =
      (if (modeSwitch D (beforeModes D s i) i).1.timerCount > MAX_TIMER_COUNT then ModeError
       else (modeSwitch D (beforeModes D s i) i).1.mode) := by
  simp only [cycle_eq, updateDisplay_fst, handleModes, andThen, timerCheck_fst]

theorem cycle_timerCount (D : DoorStatusDecl) (s : State) (i : Input) :
    (cycle D s i).timerCount = (modeSwitch D (beforeModes D s i) i).1.timerCount := by
  simp only [cycle_eq, updateDisplay_fst, handleModes, andThen, timerCheck_fst]

theorem cycle_doorStatus (D : DoorStatusDecl) (s : State) (i : Input) :
    (cycle D s i).doorStatus = (modeSwitch D (beforeModes D s i) i).1.doorStatus := by
  simp only [cycle_eq, updateDisplay_fst, handleModes, andThen, timerCheck_fst]

theorem cycle_positionKnown (D : DoorStatusDecl) (s : State) (i : Input) :
    (cycle D s i).positionKnown = (modeSwitch D (beforeModes D s i) i).1.positionKnown := by
  simp only [cycle_eq, updateDisplay_fst, handleModes, andThen, timerCheck_fst]

theorem cycle_buttonStatus (D : DoorStatusDecl) (s : State) (i : Input) :
    (cycle D s i).buttonStatus = (modeSwitch D (beforeModes D s i) i).1.buttonStatus := by
  simp only [cycle_eq, updateDisplay_fst, handleModes, andThen, timerCheck_fst]

/-- No mode handler touches the latches. -/
theorem modeSwitch_latches (D : DoorStatusDecl) (s : State) (i : Input) :
    (modeSwitch D s i).1.button1Pressed = s.button1Pressed ∧
    (modeSwitch D s i).1.button2Pressed = s.button2Pressed ∧
    (modeSwitch D s i).1.button3Pressed = s.button3Pressed := by
  unfold modeSwitch
  cases s.mode <;>
    simp [handleModeInitPos, handleModeRunForOpen, handleModeRunForClose,
      handleModeDisplayClosing]
  unfold handleModeDisplayOpening
  split_ifs <;> simp

theorem cycle_button1Pressed (D : DoorStatusDecl) (s : State) (i : Input) :
    (cycle D s i).button1Pressed = i.buttonState1 := by
  simp only [cycle_eq, updateDisplay_fst, handleModes, andThen, timerCheck_fst,
    (modeSwitch_latches D _ i).1, beforeModes_button1Pressed]

theorem cycle_button2Pressed (D : DoorStatusDecl) (s : State) (i : Input) :
    (cycle D s i).button2Pressed = i.buttonState2 := by
  simp only [cycle_eq, updateDisplay_fst, handleModes, andThen, timerCheck_fst,
    (modeSwitch_latches D _ i).2.1, beforeModes_button2Pressed]

theorem cycle_button3Pressed (D : DoorStatusDecl) (s : State) (i : Input) :
    (cycle D s i).button3Pressed = i.buttonState3 := by
  simp only [cycle_eq, updateDisplay_fst, handleModes, andThen, timerCheck_fst,
    (modeSwitch_latches D _ i).2.2, beforeModes_button3Pressed]

theorem cycle_displayInit (D : DoorStatusDecl) (s : State) (i : Input)
    (h : s.mode = ModeDisplayInit) :
    (cycle D s i).mode =
      (if s.timerCount > MAX_TIMER_COUNT then ModeError else ModeDisplayInit) := by
  have hb : (beforeModes D s i).mode = ModeDisplayInit := by
    rw [beforeModes_mode]
    simp [alarmDue, doorCommandTaken, h]
  rw [cycle_mode, modeSwitch_default D _ i (Or.inr (Or.inl hb)), hb, beforeModes_timerCount]

theorem modeSwitch_timerCount (D : DoorStatusDecl) (s : State) (i : Input) :
    (modeSwitch D s i).1.timerCount =
      (if s.mode = ModeInitPos then s.timerCount + 1
       else if s.mode = ModeInitPosAchieved then 0 else s.timerCount) := by
  unfold modeSwitch
  cases h : s.mode <;>
    simp [handleModeInitPos, handleModeRunForOpen, handleModeRunForClose,
      handleModeDisplayClosing]
  unfold handleModeDisplayOpening
  split_ifs <;> simp

theorem modeSwitch_positionKnown (D : DoorStatusDecl) (s : State) (i : Input) :
    (modeSwitch D s i).1.positionKnown =
      (if s.mode = ModeInitPosAchieved then true else s.positionKnown) := by
  unfold modeSwitch
  cases h : s.mode <;>
    simp [handleModeInitPos, handleModeRunForOpen, handleModeRunForClose,
      handleModeDisplayClosing]
  unfold handleModeDisplayOpening
  split_ifs <;> simp

/-- The stop line was read `HIGH` in the sweep exactly when one of its
`n` reads, starting at iteration `k`, is `HIGH`. -/
theorem sweepFrom_found_iff (stopPin : Nat → Bool) (n k : Nat) :
    (sweepFrom stopPin n k).2 = true ↔ ∃ j, j < n ∧ stopPin (k + j) = true := by
  induction n generalizing k with
  | zero => simp [sweepFrom]
  | succ n ih =>
    unfold sweepFrom
    by_cases h : stopPin k = true
    · simp only [h, if_true, true_iff]
      exact ⟨0, Nat.succ_pos n, h⟩
    · rw [if_neg h]
      show (sweepFrom stopPin n (k + 1)).2 = true ↔ _
      rw [ih]
      constructor
      · rintro ⟨j, hj, hs⟩
        exact ⟨j + 1, by omega, by rw [← hs]; congr 1; omega⟩
      · rintro ⟨j, hj, hs⟩
        rcases j with _ | j
        · exact absurd hs h
        · exact ⟨j, by omega, by rw [← hs]; congr 1; omega⟩

/-- A pass that starts in `ModeInitPos` and samples the stop line `LOW` in
`handleButtons`: the sweep runs, the counter is incremented, and the budget
check has the last word. -/
theorem cycle_initPos_sweep (D : DoorStatusDecl) (s : State) (i : Input)
    (h : s.mode = ModeInitPos) (hstop : i.stopPinState = false) :
    (cycle D s i).mode =
        (if s.timerCount + 1 > MAX_TIMER_COUNT then ModeError
         else if (sweepFrom i.stopPinSweep sweepSteps 0).2 = true then ModeInitPosAchieved
         else ModeInitPos) ∧
      (cycle D s i).timerCount = s.timerCount + 1 ∧
      (cycle D s i).positionKnown = s.positionKnown ∧
      (cycle D s i).doorStatus = s.doorStatus := by
  have hb : (beforeModes D s i).mode = ModeInitPos := by
    rw [beforeModes_mode]
    simp [alarmDue, doorCommandTaken, h, hstop]
  rw [cycle_mode, cycle_positionKnown, cycle_doorStatus, cycle_timerCount,
    modeSwitch_initPos D _ i hb]
  simp [handleModeInitPos, hb, beforeModes_timerCount, beforeModes_positionKnown,
    beforeModes_doorStatus]

/-- Outside `ModeDoNothing`, `ModeError` and `ModeInitPos` neither the alarm
check nor `handleButtons` changes the mode. -/
theorem beforeModes_mode_of_busy (D : DoorStatusDecl) (s : State) (i : Input)
    (h1 : s.mode ≠ ModeDoNothing) (h2 : s.mode ≠ ModeError) (h3 : s.mode ≠ ModeInitPos) :
    (beforeModes D s i).mode = s.mode := by
  rw [beforeModes_mode]
  simp [alarmDue, doorCommandTaken, h1, h2, h3]

theorem cycle_displayOpening_closed (D : DoorStatusDecl) (s : State) (i : Input)
    (h : s.mode = ModeDisplayOpening) (hd : s.doorStatus = D.DoorStatusClosed) :
    (cycle D s i).mode =
        (if s.timerCount > MAX_TIMER_COUNT then ModeError else ModeRunForOpen) ∧
      (cycle D s i).doorStatus = D.DoorStatusUnkonwn ∧
      (cycle D s i).positionKnown = s.positionKnown ∧
      (cycle D s i).timerCount = s.timerCount := by
  have hb : (beforeModes D s i).mode = ModeDisplayOpening := by
    rw [beforeModes_mode_of_busy D s i (by simp [h]) (by simp [h]) (by simp [h]), h]
  rw [cycle_mode, cycle_positionKnown, cycle_doorStatus, cycle_timerCount,
    modeSwitch_displayOpening D _ i hb]
  simp [handleModeDisplayOpening, beforeModes_doorStatus, beforeModes_timerCount,
    beforeModes_positionKnown, hd]

theorem cycle_displayOpening_not_closed (D : DoorStatusDecl) (s : State) (i : Input)
    (h : s.mode = ModeDisplayOpening) (hd : s.doorStatus ≠ D.DoorStatusClosed) :
    (cycle D s i).mode =
        (if s.timerCount > MAX_TIMER_COUNT then ModeError else ModeDisplayOpening) ∧
      (cycle D s i).doorStatus = s.doorStatus ∧
      (cycle D s i).positionKnown = s.positionKnown ∧
      (cycle D s i).timerCount = s.timerCount := by
  have hb : (beforeModes D s i).mode = ModeDisplayOpening := by
    rw [beforeModes_mode_of_busy D s i (by simp [h]) (by simp [h]) (by simp [h]), h]
  rw [cycle_mode, cycle_positionKnown, cycle_doorStatus, cycle_timerCount,
    modeSwitch_displayOpening D _ i hb]
  simp [handleModeDisplayOpening, beforeModes_doorStatus, beforeModes_timerCount,
    beforeModes_positionKnown, hd, hb]

theorem cycle_displayClosing (D : DoorStatusDecl) (s : State) (i : Input)
    (h : s.mode = ModeDisplayClosing) :
    (cycle D s i).mode =
        (if s.timerCount > MAX_TIMER_COUNT then ModeError else ModeRunForClose) ∧
      (cycle D s i).doorStatus = D.DoorStatusUnkonwn ∧
      (cycle D s i).positionKnown = s.positionKnown ∧
      (cycle D s i).timerCount = s.timerCount := by
  have hb : (beforeModes D s i).mode = ModeDisplayClosing := by
    rw [beforeModes_mode_of_busy D s i (by simp [h]) (by simp [h]) (by simp [h]), h]
  rw [cycle_mode, cycle_positionKnown, cycle_doorStatus, cycle_timerCount,
    modeSwitch_displayClosing D _ i hb]
  simp [handleModeDisplayClosing, beforeModes_timerCount, beforeModes_positionKnown]

theorem cycle_runForOpen (D : DoorStatusDecl) (s : State) (i : Input)
    (h : s.mode = ModeRunForOpen) :
    (cycle D s i).mode =
        (if s.timerCount > MAX_TIMER_COUNT then ModeError else ModeDoNothing) ∧
      (cycle D s i).doorStatus = D.DoorStatusopen ∧
      (cycle D s i).positionKnown = s.positionKnown ∧
      (cycle D s i).timerCount = s.timerCount := by
  have hb : (beforeModes D s i).mode = ModeRunForOpen := by
    rw [beforeModes_mode_of_busy D s i (by simp [h]) (by simp [h]) (by simp [h]), h]
  rw [cycle_mode, cycle_positionKnown, cycle_doorStatus, cycle_timerCount,
    modeSwitch_runForOpen D _ i hb]
  simp [handleModeRunForOpen, beforeModes_timerCount, beforeModes_positionKnown]

theorem cycle_runForClose (D : DoorStatusDecl) (s : State) (i : Input)
    (h : s.mode = ModeRunForClose) :
    (cycle D s i).mode =
        (if s.timerCount > MAX_TIMER_COUNT then ModeError else ModeDoNothing) ∧
      (cycle D s i).doorStatus = D.DoorStatusClosed ∧
      (cycle D s i).positionKnown = s.positionKnown ∧
      (cycle D s i).timerCount = s.timerCount := by
  have hb : (beforeModes D s i).mode = ModeRunForClose := by
    rw [beforeModes_mode_of_busy D s i (by simp [h]) (by simp [h]) (by simp [h]), h]
  rw [cycle_mode, cycle_positionKnown, cycle_doorStatus, cycle_timerCount,
    modeSwitch_runForClose D _ i hb]
  simp [handleModeRunForClose, beforeModes_timerCount, beforeModes_positionKnown]

/-- A pass in which the alarm check fires: the switch moves on to
`ModeDisplayOpening` in the same pass and resets the focus. -/
theorem cycle_alarm (D : DoorStatusDecl) (s : State) (i : Input)
    (h : alarmDue s i.now) :
    (beforeModes D s i).mode = ModeTimeForFood ∧
      (cycle D s i).mode =
        (if s.timerCount > MAX_TIMER_COUNT then ModeError else ModeDisplayOpening) ∧
      (cycle D s i).buttonStatus = ButtonStatusOpenClose ∧
      (cycle D s i).doorStatus = s.doorStatus ∧
      (cycle D s i).positionKnown = s.positionKnown ∧
      (cycle D s i).timerCount = s.timerCount := by
  have hb : (beforeModes D s i).mode = ModeTimeForFood := by
    rw [beforeModes_mode]
    simp [h]
  rw [cycle_mode, cycle_positionKnown, cycle_doorStatus, cycle_timerCount, cycle_buttonStatus,
    modeSwitch_timeForFood D _ i hb]
  simp [hb, beforeModes_timerCount, beforeModes_positionKnown, beforeModes_doorStatus]

/-- A pass in which the door command of line 175 is executed and the alarm
does not fire: `handleModes` already runs the display handler of the new mode. -/
theorem cycle_doorCommand (D : DoorStatusDecl) (s : State) (i : Input)
    (hno : ¬ alarmDue s i.now) (h : doorCommandTaken s i) :
    (beforeModes D s i).mode = doorCommandTarget D s ∧
      (cycle D s i).mode =
        (if s.timerCount > MAX_TIMER_COUNT then ModeError
         else if s.positionKnown = true then
          (if s.doorStatus = D.DoorStatusClosed then ModeRunForOpen else ModeRunForClose)
         else ModeDisplayInit) ∧
      (cycle D s i).doorStatus =
        (if s.positionKnown = true then D.DoorStatusUnkonwn else s.doorStatus) ∧
      (cycle D s i).positionKnown = s.positionKnown ∧
      (cycle D s i).timerCount = s.timerCount := by
  have hb : (beforeModes D s i).mode = doorCommandTarget D s := by
    rw [beforeModes_mode]
    simp [h, hno]
  refine ⟨hb, ?_⟩
  unfold doorCommandTarget at hb
  rw [cycle_mode, cycle_positionKnown, cycle_doorStatus, cycle_timerCount]
  by_cases hp : s.positionKnown = true
  · by_cases hd : s.doorStatus = D.DoorStatusClosed
    · simp only [hp, hd, if_true] at hb
      rw [modeSwitch_displayOpening D _ i hb]
      simp [handleModeDisplayOpening, beforeModes_doorStatus, beforeModes_timerCount,
        beforeModes_positionKnown, hd, hp]
    · simp only [hp, hd, if_true, if_false] at hb
      rw [modeSwitch_displayClosing D _ i hb]
      simp [handleModeDisplayClosing, beforeModes_timerCount, beforeModes_positionKnown, hd, hp]
  · simp only [hp, if_false] at hb
    rw [modeSwitch_default D _ i (Or.inr (Or.inl hb))]
    simp [beforeModes_doorStatus, beforeModes_timerCount, beforeModes_positionKnown, hp, hb]

/-- The alarm check in terms of `alarmDue`. -/
theorem alarmCheck_spec (s : State) (now : RtcDateTime) :
    (Effect.serialPrintln "ALARM TRIGGERED" ∈ (alarmCheck s now).2 ↔ alarmDue s now) ∧
    (alarmCheck s now).1.mode = (if alarmDue s now then ModeTimeForFood else s.mode) := by
  unfold alarmCheck alarmDue
  by_cases h : (s.mode = ModeDoNothing ∨ s.mode = ModeError) ∧
      (now.Hour : Int) = s.alarmHr ∧ (now.Minute : Int) = s.alarmMin ∧ now.Second = 0
  · have h2 : (now.Hour : Int) = s.alarmHr ∧ (now.Minute : Int) = s.alarmMin ∧ now.Second = 0 ∧
        (s.mode = ModeDoNothing ∨ s.mode = ModeError) := ⟨h.2.1, h.2.2.1, h.2.2.2, h.1⟩
    simp only [h, h2]
    simp
  · have h2 : ¬ ((now.Hour : Int) = s.alarmHr ∧ (now.Minute : Int) = s.alarmMin ∧
        now.Second = 0 ∧ (s.mode = ModeDoNothing ∨ s.mode = ModeError)) :=
      fun g => h ⟨g.2.2.2, g.1, g.2.1, g.2.2.1⟩
    simp only [h, h2]
    simp

/-! ## The effects of the blocks -/

theorem button3Block_snd (s : State) (i : Input) : (button3Block s i).2 = [] := by
  cases h : i.buttonState3 <;> cases hp : s.button3Pressed <;> simp [button3Block, h, hp]

theorem button2Block_snd (s : State) (i : Input) :
    (button2Block s i).2 =
      (if button2Edge s i ∧ s.buttonStatus = ButtonStatusSetTime then
        [Effect.rtcSetDateTime (i.now.Hour : Int) (Int.tmod (s.clockMin + 1) 60) 0]
       else []) := by
  rcases s with ⟨mc, mst, b3, b2, b1, pk, sh, sbd, sbe, bs, ds, m, tc, ah, am, ch, cm, rd⟩
  cases h : i.buttonState2 <;> cases b2 <;>
    simp [button2Block, button2Edge, h, ButtonStatusSetAlarm, ButtonStatusSetTime]
  by_cases h2 : bs = 2
  · simp [h2]
  · by_cases h1 : bs = 1 <;> simp [h1, h2]

theorem button1Block_snd (D : DoorStatusDecl) (s : State) (i : Input) :
    (button1Block D s i).2 =
      (if button1Edge s i ∧ s.buttonStatus = ButtonStatusSetTime then
        [Effect.rtcSetDateTime (Int.tmod (s.clockHr + 1) 24) (i.now.Minute : Int) 0]
       else []) := by
  rcases s with ⟨mc, mst, b3, b2, b1, pk, sh, sbd, sbe, bs, ds, m, tc, ah, am, ch, cm, rd⟩
  cases h : i.buttonState1 <;> cases b1 <;>
    simp [button1Block, button1Edge, h, ButtonStatusSetAlarm, ButtonStatusSetTime,
      ButtonStatusOpenClose]
  by_cases h1 : bs = 1
  · simp [h1]
  · by_cases h2 : bs = 2
    · simp [h2]
    · by_cases h0 : bs = 0
      · by_cases hm : m = ModeDoNothing ∨ m = ModeError <;> simp [h0, hm]
      · simp [h0, h1, h2]

theorem stopPinBlock_snd (s : State) (i : Input) : (stopPinBlock s i).2 = [] := by
  unfold stopPinBlock
  split_ifs <;> rfl

theorem timerCheck_snd (s : State) : (timerCheck s).2 = [] := by
  unfold timerCheck
  split_ifs <;> rfl

/-- The effects of `handleButtons`: at most one RTC write by the button-2
block, then at most one by the button-1 block. -/
theorem handleButtons_snd (D : DoorStatusDecl) (s : State) (i : Input) :
    (handleButtons D s i).2 =
      (if button2Edge s i ∧ focusAfter3 s i = ButtonStatusSetTime then
        [Effect.rtcSetDateTime (i.now.Hour : Int) (Int.tmod (s.clockMin + 1) 60) 0]
       else []) ++
      (if button1Edge s i ∧ focusAfter3 s i = ButtonStatusSetTime then
        [Effect.rtcSetDateTime (Int.tmod (s.clockHr + 1) 24) (i.now.Minute : Int) 0]
       else []) := by
  simp only [handleButtons, andThen, button3Block_snd, button2Block_snd, button1Block_snd,
    stopPinBlock_snd, button3Block_fst, button2Block_fst, button1Edge, button2Edge, focusAfter3,
    List.nil_append, List.append_nil]

/-- The effects of one pass, piece by piece. -/
theorem loop_snd (D : DoorStatusDecl) (s : State) (i : Input) :
    (loop D s i).2 =
      (rtcValidCheck s i).2 ++ (alarmCheck s i.now).2 ++
        (handleButtons D (alarmCheck s i.now).1 i).2 ++
        (modeSwitch D (beforeModes D s i) i).2 ++
        (updateDisplay (handleModes D (beforeModes D s i) i).1 i).2 := by
  simp only [loop, andThen, rtcValidCheck_fst, beforeModes, handleModes, timerCheck_snd,
    List.append_nil]

theorem rtcWrites_append (a b : List Effect) :
    rtcWrites (a ++ b) = rtcWrites a ++ rtcWrites b := by
  induction a with
  | nil => rfl
  | cons e es ih => cases e <;> simp [rtcWrites, ih]

theorem actuatorCommands_append (a b : List Effect) :
    actuatorCommands (a ++ b) = actuatorCommands a ++ actuatorCommands b := by
  simp [actuatorCommands]

theorem rtcWrites_rtcValidCheck (s : State) (i : Input) :
    rtcWrites (rtcValidCheck s i).2 = [] := by
  unfold rtcValidCheck
  split_ifs <;> rfl

theorem rtcWrites_alarmCheck (s : State) (now : RtcDateTime) :
    rtcWrites (alarmCheck s now).2 = [] := by
  by_cases h : (s.mode = ModeDoNothing ∨ s.mode = ModeError) ∧ (now.Hour : Int) = s.alarmHr ∧
      (now.Minute : Int) = s.alarmMin ∧ now.Second = 0 <;> simp [alarmCheck, h, rtcWrites]

theorem rtcWrites_modeSwitch (D : DoorStatusDecl) (s : State) (i : Input) :
    rtcWrites (modeSwitch D s i).2 = [] := by
  unfold modeSwitch
  cases s.mode <;>
    simp [handleModeInitPos, handleModeRunForOpen, handleModeRunForClose,
      handleModeDisplayClosing, rtcWrites]
  unfold handleModeDisplayOpening
  split_ifs <;> simp [rtcWrites]

theorem rtcWrites_updateDisplay (s : State) (i : Input) :
    rtcWrites (updateDisplay s i).2 = [] := by
  by_cases h : s.screenBlankDelayCount < SCREEN_BLANK_DELAY
  · simp [updateDisplay, h, rtcWrites]
  · by_cases h2 : s.screenBlankEffectDelay + 1 = SCREEN_BLANK_EFFECT_DELAY <;>
      simp [updateDisplay, h, h2, rtcWrites]

/-- The RTC writes of one pass: the button-2 block commits the clock hour with
the minute advanced, then the button-1 block commits the hour advanced with the
clock minute as read at the start of the pass. -/
theorem loop_rtcWrites (D : DoorStatusDecl) (s : State) (i : Input) :
    rtcWrites (loop D s i).2 =
      (if button2Edge s i ∧ focusAfter3 s i = ButtonStatusSetTime then
        [((i.now.Hour : Int), Int.tmod ((i.now.Minute : Int) + 1) 60, (0 : Int))]
       else []) ++
      (if button1Edge s i ∧ focusAfter3 s i = ButtonStatusSetTime then
        [(Int.tmod ((i.now.Hour : Int) + 1) 24, (i.now.Minute : Int), (0 : Int))]
       else []) := by
  rw [loop_snd]
  simp only [rtcWrites_append, rtcWrites_rtcValidCheck, rtcWrites_alarmCheck,
    rtcWrites_modeSwitch, rtcWrites_updateDisplay, List.nil_append, List.append_nil,
    handleButtons_snd]
  simp only [alarmCheck_fst, button1Edge, button2Edge, focusAfter3, button3Edge]
  split_ifs <;> rfl

theorem handleButtons_alarmMin (D : DoorStatusDecl) (s : State) (i : Input) :
    (handleButtons D s i).1.alarmMin =
      (if button2Edge s i ∧ focusAfter3 s i = ButtonStatusSetAlarm then
        Int.tmod (s.alarmMin + 10) 60
       else s.alarmMin) := by
  simp only [handleButtons, andThen, button3Block_fst, button2Block_fst, button1Block_fst,
    stopPinBlock_fst, button2Edge, focusAfter3]

theorem handleButtons_alarmHr (D : DoorStatusDecl) (s : State) (i : Input) :
    (handleButtons D s i).1.alarmHr =
      (if button1Edge s i ∧ focusAfter3 s i = ButtonStatusSetAlarm then
        Int.tmod (s.alarmHr + 1) 24
       else s.alarmHr) := by
  simp only [handleButtons, andThen, button3Block_fst, button2Block_fst, button1Block_fst,
    stopPinBlock_fst, button1Edge, focusAfter3]

/-- No mode handler touches the alarm time. -/
theorem modeSwitch_alarm (D : DoorStatusDecl) (s : State) (i : Input) :
    (modeSwitch D s i).1.alarmHr = s.alarmHr ∧ (modeSwitch D s i).1.alarmMin = s.alarmMin := by
  unfold modeSwitch
  cases s.mode <;>
    simp [handleModeInitPos, handleModeRunForOpen, handleModeRunForClose,
      handleModeDisplayClosing]
  unfold handleModeDisplayOpening
  split_ifs <;> simp

theorem cycle_alarmMin (D : DoorStatusDecl) (s : State) (i : Input) :
    (cycle D s i).alarmMin =
      (if button2Edge s i ∧ focusAfter3 s i = ButtonStatusSetAlarm then
        Int.tmod (s.alarmMin + 10) 60
       else s.alarmMin) := by
  simp only [cycle_eq, updateDisplay_fst, handleModes, andThen, timerCheck_fst,
    (modeSwitch_alarm D _ i).2, beforeModes, handleButtons_alarmMin, alarmCheck_fst,
    button2Edge, focusAfter3, button3Edge]

theorem cycle_alarmHr (D : DoorStatusDecl) (s : State) (i : Input) :
    (cycle D s i).alarmHr =
      (if button1Edge s i ∧ focusAfter3 s i = ButtonStatusSetAlarm then
        Int.tmod (s.alarmHr + 1) 24
       else s.alarmHr) := by
  simp only [cycle_eq, updateDisplay_fst, handleModes, andThen, timerCheck_fst,
    (modeSwitch_alarm D _ i).1, beforeModes, handleButtons_alarmHr, alarmCheck_fst,
    button1Edge, focusAfter3, button3Edge]

/-- What the switch leaves in `mode`, `doorStatus` and `timerCount` depends
only on these three variables and on the stop line during the sweep. -/
theorem modeSwitch_congr (D : DoorStatusDecl) (s t : State) (i j : Input)
    (hm : s.mode = t.mode) (hd : s.doorStatus = t.doorStatus)
    (ht : s.timerCount = t.timerCount) (hs : i.stopPinSweep = j.stopPinSweep) :
    (modeSwitch D s i).1.mode = (modeSwitch D t j).1.mode ∧
    (modeSwitch D s i).1.doorStatus = (modeSwitch D t j).1.doorStatus ∧
    (modeSwitch D s i).1.timerCount = (modeSwitch D t j).1.timerCount := by
  cases h : s.mode <;> have h' := hm ▸ h <;>
    simp [modeSwitch, h, h', handleModeInitPos, handleModeRunForOpen, handleModeRunForClose,
      handleModeDisplayClosing, handleModeDisplayOpening, hd, ht, hs]
  rw [← hd]
  split_ifs <;> simp [h, h', hd, ht]

/-! ## Claim C1: the alarm trigger -/

/-- C1: for every state and clock reading, the alarm check (lines 118-127)
performs its assignment of `ModeTimeForFood` (and logs the trigger) exactly when
the clock hour and minute equal the alarm hour and minute, the second is 0 and
the mode is `ModeDoNothing` or `ModeError`; then the mode after the check is
`ModeTimeForFood`, and in every other case the mode is unchanged. -/
theorem alarmCheck_fires_iff (s : State) (now : RtcDateTime) :
    (Effect.serialPrintln "ALARM TRIGGERED" ∈ (alarmCheck s now).2 ↔ alarmDue s now) ∧
    (alarmCheck s now).1.mode = (if alarmDue s now then ModeTimeForFood else s.mode) ∧
    (alarmCheck s now).1.alarmHr = s.alarmHr ∧ (alarmCheck s now).1.alarmMin = s.alarmMin := by
  obtain ⟨hlog, hmode⟩ := alarmCheck_spec s now
  refine ⟨hlog, hmode, ?_, ?_⟩ <;> rw [alarmCheck_fst]

/-! ## Claim C2: the door command of button 1 -/

/-- C2, counterexample to the claim as stated: the state has focus
`DoorCommand`, mode `ModeDoNothing`, known position and a closed door, button 1
has a rising edge, yet `handleButtons` leaves the mode `ModeDoNothing`, because
button 3 rises in the same pass and moves the focus to `SetTime` before button 1
is looked at (the press adds an hour to the clock instead). -/
theorem handleButtons_door_command_counterexample :
    idleClosedState.buttonStatus = ButtonStatusOpenClose ∧
    button1Edge idleClosedState press13Input ∧
    idleClosedState.mode = ModeDoNothing ∧
    idleClosedState.positionKnown = true ∧
    idleClosedState.doorStatus = sampleDecl.DoorStatusClosed ∧
    (handleButtons sampleDecl idleClosedState press13Input).1.mode = ModeDoNothing ∧
    (handleButtons sampleDecl idleClosedState press13Input).1.buttonStatus =
      ButtonStatusSetTime ∧
    (handleButtons sampleDecl idleClosedState press13Input).2 =
      [Effect.rtcSetDateTime 1 0 0] := by
  decide

/-- C2, as amended: in a state with focus `DoorCommand`, a rising edge on
button 1 in a pass where button 3 has no rising edge makes `handleButtons` set
the mode to `ModeDisplayOpening` if the mode is `ModeDoNothing` or `ModeError`,
the position is known and the door status is `DoorStatusClosed`; to
`ModeDisplayClosing` if instead the door status is not `DoorStatusClosed` (in
particular if it is `DoorStatusopen`, when the two constants differ); to
`ModeDisplayInit` if the mode is `ModeDoNothing` or `ModeError` and the position
is unknown; and in any other mode the press changes nothing: the mode after
`handleButtons` is the mode before, except that a `HIGH` stop line turns
`ModeInitPos` into `ModeInitPosAchieved`. -/
theorem handleButtons_door_command (D : DoorStatusDecl) (s : State) (i : Input)
    (hfocus : s.buttonStatus = ButtonStatusOpenClose)
    (hedge : button1Edge s i) (hno3 : ¬ button3Edge s i) :
    ((s.mode = ModeDoNothing ∨ s.mode = ModeError) → s.positionKnown = true →
        s.doorStatus = D.DoorStatusClosed →
        (handleButtons D s i).1.mode = ModeDisplayOpening) ∧
    ((s.mode = ModeDoNothing ∨ s.mode = ModeError) → s.positionKnown = true →
        s.doorStatus ≠ D.DoorStatusClosed →
        (handleButtons D s i).1.mode = ModeDisplayClosing) ∧
    ((s.mode = ModeDoNothing ∨ s.mode = ModeError) → s.positionKnown = true →
        D.DoorStatusClosed ≠ D.DoorStatusopen → s.doorStatus = D.DoorStatusopen →
        (handleButtons D s i).1.mode = ModeDisplayClosing) ∧
    ((s.mode = ModeDoNothing ∨ s.mode = ModeError) → s.positionKnown = false →
        (handleButtons D s i).1.mode = ModeDisplayInit) ∧
    (¬ (s.mode = ModeDoNothing ∨ s.mode = ModeError) →
        (handleButtons D s i).1.mode =
          (if i.stopPinState = true ∧ s.mode = ModeInitPos then ModeInitPosAchieved
           else s.mode)) := by
  have hf : focusAfter3 s i = ButtonStatusOpenClose := by
    simp only [focusAfter3, hno3, if_false, hfocus]
  refine ⟨?_, ?_, ?_, ?_, ?_⟩
  · intro hm hp hd
    have ht : doorCommandTaken s i := ⟨hedge, hf, hm⟩
    simp [handleButtons_mode, ht, doorCommandTarget, hp, hd]
  · intro hm hp hd
    have ht : doorCommandTaken s i := ⟨hedge, hf, hm⟩
    simp [handleButtons_mode, ht, doorCommandTarget, hp, hd]
  · intro hm hp hne hd
    have ht : doorCommandTaken s i := ⟨hedge, hf, hm⟩
    have hd2 : s.doorStatus ≠ D.DoorStatusClosed := by
      rw [hd]; exact fun h => hne h.symm
    simp [handleButtons_mode, ht, doorCommandTarget, hp, hd2]
  · intro hm hp
    have ht : doorCommandTaken s i := ⟨hedge, hf, hm⟩
    simp [handleButtons_mode, ht, doorCommandTarget, hp]
  · intro hm
    have ht : ¬ doorCommandTaken s i := fun h => hm h.2.2
    simp only [handleButtons_mode, ht, if_false]

/-- C2, witness: the amended statement applied to the state with focus
`DoorCommand`, mode `ModeDoNothing`, known position and closed door, when only
button 1 reads `HIGH`: the mode becomes `ModeDisplayOpening`. -/
theorem handleButtons_door_command_witness :
    idleClosedState.buttonStatus = ButtonStatusOpenClose ∧
    button1Edge idleClosedState press1Input ∧ ¬ button3Edge idleClosedState press1Input ∧
    (handleButtons sampleDecl idleClosedState press1Input).1.mode = ModeDisplayOpening :=
  ⟨by decide, by decide, by decide,
    (handleButtons_door_command sampleDecl idleClosedState press1Input (by decide) (by decide)
      (by decide)).1 (by decide) (by decide) (by decide)⟩

/-! ## Claim C3: one action per rising edge -/

/-- When the guard of a button's `if` fails, its block does nothing but copy
the line level into the latch. -/
theorem button3Block_of_not_edge (s : State) (i : Input) (h : ¬ button3Edge s i) :
    (button3Block s i).1 = { s with button3Pressed := i.buttonState3 } ∧
      (button3Block s i).2 = [] := by
  refine ⟨by simp only [button3Block_fst, h, if_false], ?_⟩
  unfold button3Edge at h
  unfold button3Block
  cases hb : i.buttonState3 <;> simp_all

theorem button2Block_of_not_edge (s : State) (i : Input) (h : ¬ button2Edge s i) :
    (button2Block s i).1 = { s with button2Pressed := i.buttonState2 } ∧
      (button2Block s i).2 = [] := by
  refine ⟨by simp only [button2Block_fst, h, false_and, if_false], ?_⟩
  unfold button2Edge at h
  unfold button2Block
  cases hb : i.buttonState2 <;> simp_all

theorem button1Block_of_not_edge (D : DoorStatusDecl) (s : State) (i : Input)
    (h : ¬ button1Edge s i) :
    (button1Block D s i).1 = { s with button1Pressed := i.buttonState1 } ∧
      (button1Block D s i).2 = [] := by
  refine ⟨by simp only [button1Block_fst, h, false_and, if_false], ?_⟩
  unfold button1Edge at h
  unfold button1Block
  cases hb : i.buttonState1 <;> simp_all

/-- Within a pass, each button block finds its latch as the pass found it:
the code that runs earlier in the pass does not write it. -/
theorem latch_on_block_entry (s : State) (i : Input) :
    (alarmCheck s i.now).1.button3Pressed = s.button3Pressed ∧
    (button3Block (alarmCheck s i.now).1 i).1.button2Pressed = s.button2Pressed ∧
    (button2Block (button3Block (alarmCheck s i.now).1 i).1 i).1.button1Pressed =
      s.button1Pressed := by
  simp only [alarmCheck_fst, button3Block_fst, button2Block_fst, and_self]

/-- After any pass each latch holds the level just read on its line. -/
theorem cycle_latch (D : DoorStatusDecl) (b : Button) (s : State) (i : Input) :
    b.latch (cycle D s i) = b.line i := by
  cases b
  · exact cycle_button1Pressed D s i
  · exact cycle_button2Pressed D s i
  · exact cycle_button3Pressed D s i

/-- From the second pass on, a button acts exactly on a rising edge of its line:
`LOW` in the previous pass, `HIGH` in this one. -/
theorem acts_iff_rising (D : DoorStatusDecl) (b : Button) (s : State) (inputs : Nat → Input)
    (k : Nat) :
    b.acts (run D s inputs (k + 1)) (inputs (k + 1)) ↔
      b.line (inputs k) = false ∧ b.line (inputs (k + 1)) = true := by
  unfold Button.acts
  rw [run, cycle_latch]
  exact And.comm

/-- The blocks and entry states are those of the pass: each block starts in
the state the previous one left, and `handleModes` starts after the stop-line
check that follows the block of button 1. -/
theorem pass_blocks (D : DoorStatusDecl) (s : State) (i : Input) :
    Button.button2.entry s i =
      (Button.button3.block D (Button.button3.entry s i) i).1 ∧
    Button.button1.entry s i =
      (Button.button2.block D (Button.button2.entry s i) i).1 ∧
    beforeModes D s i =
      (stopPinBlock (Button.button1.block D (Button.button1.entry s i) i).1 i).1 :=
  ⟨rfl, rfl, rfl⟩

/-- The block of a button finds its latch as the pass found it. -/
theorem entry_latch (b : Button) (s : State) (i : Input) :
    b.latch (b.entry s i) = b.latch s := by
  cases b
  · exact (latch_on_block_entry s i).2.2
  · exact (latch_on_block_entry s i).2.1
  · exact (latch_on_block_entry s i).1

/-- With the line `HIGH` and the latch clear, the block runs the body of its
`if`. -/
theorem block_of_rising (D : DoorStatusDecl) (b : Button) (t : State) (i : Input)
    (hline : b.line i = true) (hlatch : b.latch t = false) :
    b.block D t i = b.body D t i := by
  cases b
  · simp only [Button.line, Button.latch] at hline hlatch
    simp [Button.block, Button.body, button1Block, button1Body, hline, hlatch]
  · simp only [Button.line, Button.latch] at hline hlatch
    simp [Button.block, Button.body, button2Block, button2Body, hline, hlatch]
  · simp only [Button.line, Button.latch] at hline hlatch
    simp [Button.block, Button.body, button3Block, button3Body, hline, hlatch]

/-- Otherwise the block writes the line level into the latch and does nothing
else. -/
theorem block_of_not_rising (D : DoorStatusDecl) (b : Button) (t : State) (i : Input)
    (h : ¬ (b.line i = true ∧ b.latch t = false)) :
    b.block D t i = (b.setLatch t (b.line i), []) := by
  cases b
  · have e := button1Block_of_not_edge D t i h
    exact Prod.ext e.1 e.2
  · have e := button2Block_of_not_edge t i h
    exact Prod.ext e.1 e.2
  · have e := button3Block_of_not_edge t i h
    exact Prod.ext e.1 e.2

/-- C3: for each of the three buttons and every `n ≥ 1`, if the button's line
reads `LOW` in pass 0 and `HIGH` in passes `1..n`, then in pass 1 the button's
block runs the body of its `if` (the focus advance, the increment or the door
command), and in each of the passes `2..n` the block leaves the state as it
found it and has no effect.  In any run, the block of pass `k + 1` runs the
body exactly when the line read `LOW` in pass `k` and `HIGH` in pass `k + 1`,
and otherwise only copies the line level into the latch; so between two passes
in which the button acts there is a pass in which its line reads `LOW`. -/
theorem debounce_one_action_per_press (D : DoorStatusDecl) (b : Button) (s : State)
    (inputs : Nat → Input) (n : Nat) (hn : 1 ≤ n)
    (hlow : b.line (inputs 0) = false)
    (hhigh : ∀ k, 1 ≤ k → k ≤ n → b.line (inputs k) = true) :
    b.acts (run D s inputs 1) (inputs 1) ∧
    (∀ k, 2 ≤ k → k ≤ n → ¬ b.acts (run D s inputs k) (inputs k)) ∧
    (∀ j k, j < k → b.acts (run D s inputs j) (inputs j) →
      b.acts (run D s inputs k) (inputs k) → ∃ m, j < m ∧ m < k ∧ b.line (inputs m) = false) ∧
    b.block D (b.entry (run D s inputs 1) (inputs 1)) (inputs 1) =
      b.body D (b.entry (run D s inputs 1) (inputs 1)) (inputs 1) ∧
    (∀ k, 2 ≤ k → k ≤ n →
      b.block D (b.entry (run D s inputs k) (inputs k)) (inputs k) =
        (b.entry (run D s inputs k) (inputs k), [])) ∧
    (∀ k, (b.line (inputs k) = false ∧ b.line (inputs (k + 1)) = true →
        b.block D (b.entry (run D s inputs (k + 1)) (inputs (k + 1))) (inputs (k + 1)) =
          b.body D (b.entry (run D s inputs (k + 1)) (inputs (k + 1))) (inputs (k + 1))) ∧
      (¬ (b.line (inputs k) = false ∧ b.line (inputs (k + 1)) = true) →
        b.block D (b.entry (run D s inputs (k + 1)) (inputs (k + 1))) (inputs (k + 1)) =
          (b.setLatch (b.entry (run D s inputs (k + 1)) (inputs (k + 1)))
            (b.line (inputs (k + 1))), []))) := by
  have hgen : ∀ k, (b.line (inputs k) = false ∧ b.line (inputs (k + 1)) = true →
        b.block D (b.entry (run D s inputs (k + 1)) (inputs (k + 1))) (inputs (k + 1)) =
          b.body D (b.entry (run D s inputs (k + 1)) (inputs (k + 1))) (inputs (k + 1))) ∧
      (¬ (b.line (inputs k) = false ∧ b.line (inputs (k + 1)) = true) →
        b.block D (b.entry (run D s inputs (k + 1)) (inputs (k + 1))) (inputs (k + 1)) =
          (b.setLatch (b.entry (run D s inputs (k + 1)) (inputs (k + 1)))
            (b.line (inputs (k + 1))), [])) := by
    intro k
    have hl : b.latch (b.entry (run D s inputs (k + 1)) (inputs (k + 1))) =
        b.line (inputs k) := by
      rw [entry_latch, run, cycle_latch]
    constructor
    · intro h
      exact block_of_rising D b _ _ h.2 (by rw [hl]; exact h.1)
    · intro h
      exact block_of_not_rising D b _ _ (fun g => h ⟨by rw [← hl]; exact g.2, g.1⟩)
  refine ⟨?_, ?_, ?_, ?_, ?_, hgen⟩
  · exact (acts_iff_rising D b s inputs 0).2 ⟨hlow, hhigh 1 le_rfl hn⟩
  · intro k hk2 hkn hact
    obtain ⟨k', rfl⟩ : ∃ k', k = k' + 1 := ⟨k - 1, by omega⟩
    have h := (acts_iff_rising D b s inputs k').1 hact
    have h2 := hhigh k' (by omega) (by omega)
    rw [h.1] at h2
    exact Bool.false_ne_true h2
  · intro j k hjk hj hk
    obtain ⟨k', rfl⟩ : ∃ k', k = k' + 1 := ⟨k - 1, by omega⟩
    have h := (acts_iff_rising D b s inputs k').1 hk
    refine ⟨k', ?_, by omega, h.1⟩
    rcases Nat.lt_or_ge j k' with hlt | hge
    · exact hlt
    · have hjk' : j = k' := by omega
      subst hjk'
      have h2 := hj.1
      rw [h.1] at h2
      exact absurd h2 Bool.false_ne_true
  · exact (hgen 0).1 ⟨hlow, hhigh 1 le_rfl hn⟩
  · intro k hk2 hkn
    obtain ⟨k', rfl⟩ : ∃ k', k = k' + 1 := ⟨k - 1, by omega⟩
    have hprev : b.line (inputs k') = true := hhigh k' (by omega) (by omega)
    have hcur : b.line (inputs (k' + 1)) = true := hhigh (k' + 1) (by omega) hkn
    have hl : b.latch (b.entry (run D s inputs (k' + 1)) (inputs (k' + 1))) = true := by
      rw [entry_latch, run, cycle_latch, hprev]
    rw [(hgen k').2 (fun g => by rw [hprev] at g; exact Bool.noConfusion g.1), hcur, ← hl]
    cases b <;> rfl

/-- C3, witness: button 1 is `LOW` in pass 0 and `HIGH` in passes 1 to 3, from
the power-on state (focus `DoorCommand`, position unknown).  In pass 1 its
block runs the door command and sets `ModeDisplayInit`; in passes 2 and 3 the
block changes nothing. -/
theorem debounce_one_action_per_press_witness :
    (1 ≤ 3) ∧ Button.button1.line (holdButton1 0) = false ∧
    (∀ k, 1 ≤ k → k ≤ 3 → Button.button1.line (holdButton1 k) = true) ∧
    Button.button1.acts (run sampleDecl initState holdButton1 1) (holdButton1 1) ∧
    ¬ Button.button1.acts (run sampleDecl initState holdButton1 2) (holdButton1 2) ∧
    ¬ Button.button1.acts (run sampleDecl initState holdButton1 3) (holdButton1 3) ∧
    (Button.button1.block sampleDecl
      (Button.button1.entry (run sampleDecl initState holdButton1 1) (holdButton1 1))
      (holdButton1 1)).1.mode = ModeDisplayInit ∧
    Button.button1.block sampleDecl
      (Button.button1.entry (run sampleDecl initState holdButton1 2) (holdButton1 2))
      (holdButton1 2) =
        (Button.button1.entry (run sampleDecl initState holdButton1 2) (holdButton1 2), []) ∧
    Button.button1.block sampleDecl
      (Button.button1.entry (run sampleDecl initState holdButton1 3) (holdButton1 3))
      (holdButton1 3) =
        (Button.button1.entry (run sampleDecl initState holdButton1 3) (holdButton1 3), []) :=
  have hh : ∀ k, 1 ≤ k → k ≤ 3 → Button.button1.line (holdButton1 k) = true := by
    intro k h1 h3
    interval_cases k <;> rfl
  have h := debounce_one_action_per_press sampleDecl Button.button1 initState holdButton1 3
    (by decide) rfl hh
  ⟨by decide, rfl, hh, h.1, h.2.1 2 (by decide) (by decide), h.2.1 3 (by decide) (by decide),
    by rw [h.2.2.2.1]; decide,
    h.2.2.2.2.1 2 (by decide) (by decide), h.2.2.2.2.1 3 (by decide) (by decide)⟩

/-! ## Claim C4: `ModeDisplayInit` has no successor -/

/-- C4, the code at the claim: a pass that starts in `ModeDisplayInit` never
ends in `ModeInitPos`, whatever the input; the `switch` of `handleModes` has no
`case ModeDisplayInit`, so the mode stays `ModeDisplayInit` (or becomes
`ModeError` when the step counter is above `MAX_TIMER_COUNT`). -/
theorem displayInit_does_not_advance (D : DoorStatusDecl) (s : State) (i : Input)
    (h : s.mode = ModeDisplayInit) :
    (cycle D s i).mode ≠ ModeInitPos ∧
    (cycle D s i).mode =
      (if s.timerCount > MAX_TIMER_COUNT then ModeError else ModeDisplayInit) := by
  rw [cycle_displayInit D s i h]
  refine ⟨?_, rfl⟩
  split_ifs <;> simp

/-- C4, at the failing input: from `ModeDisplayInit` with counter 0 a quiet
pass ends in `ModeDisplayInit`, not in `ModeInitPos`. -/
theorem displayInit_does_not_advance_witness :
    displayInitState.mode = ModeDisplayInit ∧
    (cycle sampleDecl displayInitState (quietInput 12 0 30)).mode = ModeDisplayInit :=
  ⟨rfl, by
    rw [(displayInit_does_not_advance sampleDecl displayInitState (quietInput 12 0 30) rfl).2]
    decide⟩

/-! ## Claim C5: homing success -/

/-- While the stop line stays `LOW`, homing stays in `ModeInitPos` and the step
counter counts the passes, as long as the counter is within the budget. -/
theorem run_homing_no_stop (D : DoorStatusDecl) (s : State) (inputs : Nat → Input)
    (h : s.mode = ModeInitPos) (hcount : s.timerCount = 0) (n : Nat)
    (hstop : ∀ k, k < n → (inputs k).stopPinState = false ∧
      ∀ j, j < sweepSteps → (inputs k).stopPinSweep j = false)
    (hn : (n : Int) ≤ MAX_TIMER_COUNT) :
    (run D s inputs n).mode = ModeInitPos ∧ (run D s inputs n).timerCount = (n : Int) := by
  induction n with
  | zero => exact ⟨h, by simpa using hcount⟩
  | succ n ih =>
    have hn' : ((n : Nat) : Int) ≤ MAX_TIMER_COUNT := by push_cast at hn; omega
    obtain ⟨hm, ht⟩ := ih (fun k hk => hstop k (Nat.lt_succ_of_lt hk)) hn'
    obtain ⟨hs1, hs2⟩ := hstop n (Nat.lt_succ_self n)
    have hnf : ¬ (sweepFrom (inputs n).stopPinSweep sweepSteps 0).2 = true := by
      rw [sweepFrom_found_iff]
      rintro ⟨j, hj, hj2⟩
      rw [Nat.zero_add, hs2 j hj] at hj2
      exact Bool.false_ne_true hj2
    have hc := cycle_initPos_sweep D (run D s inputs n) (inputs n) hm hs1
    have hle : ¬ ((n : Int) + 1 > MAX_TIMER_COUNT) := by push_cast at hn; omega
    refine ⟨?_, ?_⟩
    · rw [run, hc.1, ht, if_neg hle, if_neg hnf]
    · rw [run, hc.2.1, ht]
      push_cast
      rfl

/-- C6: starting from `ModeInitPos` with step counter 0, if the stop line never
reads `HIGH` (neither when sampled in `handleButtons` nor at any step of a
sweep), the mode is still `ModeInitPos` at the end of each of the first
`MAX_TIMER_COUNT` (50) passes and is `ModeError` at the end of pass
`MAX_TIMER_COUNT + 1` (51). -/
theorem homing_timeout (D : DoorStatusDecl) (s : State) (inputs : Nat → Input)
    (h : s.mode = ModeInitPos) (hcount : s.timerCount = 0)
    (hstop : ∀ k, (inputs k).stopPinState = false ∧
      ∀ j, j < sweepSteps → (inputs k).stopPinSweep j = false) :
    (∀ n, 1 ≤ n → n ≤ 50 → (run D s inputs n).mode = ModeInitPos) ∧
    (run D s inputs 51).mode = ModeError ∧
    (run D s inputs 51).timerCount = MAX_TIMER_COUNT + 1 := by
  have hinv := fun n hn => run_homing_no_stop D s inputs h hcount n (fun k _ => hstop k) hn
  refine ⟨?_, ?_, ?_⟩
  · intro n _ hn
    exact (hinv n (by simp only [MAX_TIMER_COUNT]; omega)).1
  · obtain ⟨hm, ht⟩ := hinv 50 (by simp [MAX_TIMER_COUNT])
    have hc := cycle_initPos_sweep D (run D s inputs 50) (inputs 50) hm (hstop 50).1
    rw [run, hc.1, ht]
    simp [MAX_TIMER_COUNT]
  · obtain ⟨hm, ht⟩ := hinv 50 (by simp [MAX_TIMER_COUNT])
    have hc := cycle_initPos_sweep D (run D s inputs 50) (inputs 50) hm (hstop 50).1
    rw [run, hc.2.1, ht]
    simp [MAX_TIMER_COUNT]

/-- C6, witness: from `ModeInitPos` with counter 0 and all lines `LOW` in
every pass, the mode is `ModeInitPos` after pass 50 and `ModeError` after
pass 51. -/
theorem homing_timeout_witness :
    homingStartState.mode = ModeInitPos ∧ homingStartState.timerCount = 0 ∧
    (run sampleDecl homingStartState quietRun 50).mode = ModeInitPos ∧
    (run sampleDecl homingStartState quietRun 51).mode = ModeError :=
  have h := homing_timeout sampleDecl homingStartState quietRun rfl rfl
    (fun _ => ⟨rfl, fun _ _ => rfl⟩)
  ⟨rfl, rfl, h.1 50 (by decide) (by decide), h.2.1⟩

/-! ## Claim C7: leaving `ModeError` after a homing timeout -/

/-- With the step counter above the budget, a pass that starts in `ModeError`
ends in `ModeError` with the counter unchanged: no mode reachable from
`ModeError` within the pass resets `timerCount`. -/
theorem cycle_error_exceeded (D : DoorStatusDecl) (s : State) (i : Input)
    (h : s.mode = ModeError) (hcount : s.timerCount > MAX_TIMER_COUNT) :
    (cycle D s i).mode = ModeError ∧ (cycle D s i).timerCount = s.timerCount := by
  have hb1 : (beforeModes D s i).mode ≠ ModeInitPos := by
    rw [beforeModes_mode]
    have := doorCommandTarget_ne_initPos D s
    split_ifs <;> simp_all
  have hb2 : (beforeModes D s i).mode ≠ ModeInitPosAchieved := by
    rw [beforeModes_mode]
    unfold doorCommandTarget
    split_ifs <;> simp_all
  have ht : (modeSwitch D (beforeModes D s i) i).1.timerCount = s.timerCount := by
    rw [modeSwitch_timerCount, if_neg hb1, if_neg hb2, beforeModes_timerCount]
  rw [cycle_mode, cycle_timerCount, ht, if_pos hcount]
  exact ⟨rfl, rfl⟩

/-- From `ModeError` with the counter within budget the door command does lead
out: with position unknown, focus `DoorCommand`, a rising edge on button 1, no
rising edge on button 3 and no alarm due, the pass ends in `ModeDisplayInit`. -/
theorem error_recovery_within_budget (D : DoorStatusDecl) (s : State) (i : Input)
    (h : s.mode = ModeError) (hcount : s.timerCount ≤ MAX_TIMER_COUNT)
    (hpos : s.positionKnown = false) (hfocus : s.buttonStatus = ButtonStatusOpenClose)
    (hedge : button1Edge s i) (hno3 : ¬ button3Edge s i) (hno : ¬ alarmDue s i.now) :
    (cycle D s i).mode = ModeDisplayInit := by
  have hf : focusAfter3 s i = ButtonStatusOpenClose := by
    simp only [focusAfter3, hno3, if_false, hfocus]
  have hc := (cycle_doorCommand D s i hno ⟨hedge, hf, Or.inr h⟩).2.1
  rw [hc, if_neg (not_lt.mpr hcount)]
  simp [hpos]

/-- C8, counterexample to the claim as stated: mode `ModeDoNothing`, alarm
08:00, clock reading 08:00:00, no button pressed, but the door status is
`DoorStatusopen`.  The alarm fires and the pass ends in `ModeDisplayOpening`;
the guard of `handleModeDisplayOpening` then keeps the mode there: after
passes 2, 3 and 4 it is still `ModeDisplayOpening`, never `ModeRunForOpen` nor
`ModeDoNothing`. -/
theorem alarm_scenario_counterexample :
    idleOpenAlarm8State.mode = ModeDoNothing ∧
    idleOpenAlarm8State.alarmHr = 8 ∧ idleOpenAlarm8State.alarmMin = 0 ∧
    (alarmRun 0).now = { Hour := 8, Minute := 0, Second := 0 } ∧
    (alarmCheck idleOpenAlarm8State (alarmRun 0).now).1.mode = ModeTimeForFood ∧
    (run sampleDecl idleOpenAlarm8State alarmRun 1).mode = ModeDisplayOpening ∧
    (run sampleDecl idleOpenAlarm8State alarmRun 2).mode = ModeDisplayOpening ∧
    (run sampleDecl idleOpenAlarm8State alarmRun 3).mode = ModeDisplayOpening ∧
    (run sampleDecl idleOpenAlarm8State alarmRun 4).mode = ModeDisplayOpening ∧
    (run sampleDecl idleOpenAlarm8State alarmRun 4).doorStatus =
      sampleDecl.DoorStatusopen := by
  decide

/-- C8, as amended: for a state with mode `ModeDoNothing`, alarm time 08:00,
door status `DoorStatusClosed` and step counter at most `MAX_TIMER_COUNT`, in
the pass whose clock reading is 08:00:00 the alarm check sets
`ModeTimeForFood` and the same pass ends in `ModeDisplayOpening` with the focus
reset to `DoorCommand`; the next pass ends in `ModeRunForOpen` and the one
after in `ModeDoNothing` with door status `DoorStatusopen`.  This holds for
every button and stop-line input, in particular with no button pressed. -/
theorem alarm_scenario (D : DoorStatusDecl) (s : State) (inputs : Nat → Input)
    (hm : s.mode = ModeDoNothing) (hah : s.alarmHr = 8) (ham : s.alarmMin = 0)
    (hd : s.doorStatus = D.DoorStatusClosed) (ht : s.timerCount ≤ MAX_TIMER_COUNT)
    (hnow : (inputs 0).now = { Hour := 8, Minute := 0, Second := 0 }) :
    (alarmCheck s (inputs 0).now).1.mode = ModeTimeForFood ∧
    (run D s inputs 1).mode = ModeDisplayOpening ∧
    (run D s inputs 1).buttonStatus = ButtonStatusOpenClose ∧
    (run D s inputs 2).mode = ModeRunForOpen ∧
    (run D s inputs 3).mode = ModeDoNothing ∧
    (run D s inputs 3).doorStatus = D.DoorStatusopen := by
  have hdue : alarmDue s (inputs 0).now := by
    rw [hnow]
    simp [alarmDue, hah, ham, hm]
  have hle : ¬ s.timerCount > MAX_TIMER_COUNT := not_lt.mpr ht
  have h1 := cycle_alarm D s (inputs 0) hdue
  rw [if_neg hle] at h1
  have h2 := cycle_displayOpening_closed D (cycle D s (inputs 0)) (inputs 1) h1.2.1
    (by rw [h1.2.2.2.1, hd])
  rw [h1.2.2.2.2.2, if_neg hle] at h2
  have h3 := cycle_runForOpen D (cycle D (cycle D s (inputs 0)) (inputs 1)) (inputs 2) h2.1
  rw [h2.2.2.2, if_neg hle] at h3
  refine ⟨?_, h1.2.1, h1.2.2.1, h2.1, h3.1, h3.2.1⟩
  rw [(alarmCheck_spec s (inputs 0).now).2, if_pos hdue]

/-- C8, witness: the amended scenario from the closed-door state with alarm
08:00, with no button pressed. -/
theorem alarm_scenario_witness :
    idleClosedAlarm8State.mode = ModeDoNothing ∧
    idleClosedAlarm8State.doorStatus = sampleDecl.DoorStatusClosed ∧
    idleClosedAlarm8State.timerCount ≤ MAX_TIMER_COUNT ∧
    (run sampleDecl idleClosedAlarm8State alarmRun 1).mode = ModeDisplayOpening ∧
    (run sampleDecl idleClosedAlarm8State alarmRun 2).mode = ModeRunForOpen ∧
    (run sampleDecl idleClosedAlarm8State alarmRun 3).mode = ModeDoNothing ∧
    (run sampleDecl idleClosedAlarm8State alarmRun 3).doorStatus =
      sampleDecl.DoorStatusopen :=
  have h := alarm_scenario sampleDecl idleClosedAlarm8State alarmRun rfl rfl rfl rfl
    (by decide) rfl
  ⟨rfl, rfl, by decide, h.2.1, h.2.2.2.1, h.2.2.2.2.1, h.2.2.2.2.2⟩

/-! ## Claim C9: the door round trip -/

/-- From `ModeDoNothing`, the door command is executed in a pass exactly when
button 1 has a rising edge, the focus left by the button-3 block is
`DoorCommand`, and the alarm does not fire in that pass. -/
theorem toggleStarts_iff (s : State) (i : Input) (hm : s.mode = ModeDoNothing) :
    toggleStarts s i ↔
      button1Edge s i ∧ focusAfter3 s i = ButtonStatusOpenClose ∧ ¬ alarmDue s i.now := by
  unfold toggleStarts doorCommandTaken
  rw [(alarmCheck_spec s i.now).2]
  simp only [button1Edge, focusAfter3, button3Edge, alarmCheck_fst]
  by_cases ha : alarmDue s i.now
  · simp [ha]
  · simp [ha, hm]

/-- In particular a rising edge on button 1 with focus `DoorCommand` starts a
toggle when button 3 has no rising edge and the alarm does not fire. -/
theorem toggleStarts_of_press (s : State) (i : Input) (hm : s.mode = ModeDoNothing)
    (hfocus : s.buttonStatus = ButtonStatusOpenClose) (hedge : button1Edge s i)
    (hno3 : ¬ button3Edge s i) (hno : ¬ alarmDue s i.now) : toggleStarts s i := by
  rw [toggleStarts_iff s i hm]
  refine ⟨hedge, ?_, hno⟩
  simp only [focusAfter3, hno3, if_false, hfocus]

/-- One door-toggle sequence: from `ModeDoNothing` with known position and the
counter within budget, the pass in which button 1 starts the toggle ends in
`ModeRunForOpen` (door closed before) or `ModeRunForClose` (otherwise) with
door status `DoorStatusUnkonwn`, and the pass after it ends in `ModeDoNothing`
with the door status toggled. -/
theorem toggle_two_passes (D : DoorStatusDecl) (s : State) (i0 i1 : Input)
    (hm : s.mode = ModeDoNothing) (hp : s.positionKnown = true)
    (ht : s.timerCount ≤ MAX_TIMER_COUNT) (h0 : toggleStarts s i0) :
    (cycle D s i0).mode =
        (if s.doorStatus = D.DoorStatusClosed then ModeRunForOpen else ModeRunForClose) ∧
      (cycle D s i0).doorStatus = D.DoorStatusUnkonwn ∧
      (cycle D s i0).positionKnown = true ∧
      (cycle D (cycle D s i0) i1).mode = ModeDoNothing ∧
      (cycle D (cycle D s i0) i1).doorStatus =
        (if s.doorStatus = D.DoorStatusClosed then D.DoorStatusopen
         else D.DoorStatusClosed) ∧
      (cycle D (cycle D s i0) i1).positionKnown = true ∧
      (cycle D (cycle D s i0) i1).timerCount = s.timerCount := by
  obtain ⟨hedge, hf, hnoalarm⟩ := (toggleStarts_iff s i0 hm).1 h0
  have hle : ¬ s.timerCount > MAX_TIMER_COUNT := not_lt.mpr ht
  have h1 := (cycle_doorCommand D s i0 hnoalarm ⟨hedge, hf, Or.inl hm⟩).2
  rw [if_neg hle, if_pos hp, if_pos hp, hp] at h1
  by_cases hd : s.doorStatus = D.DoorStatusClosed
  · rw [if_pos hd] at h1
    have h2 := cycle_runForOpen D (cycle D s i0) i1 h1.1
    rw [h1.2.2.2, h1.2.2.1, if_neg hle] at h2
    simp only [if_pos hd]
    exact ⟨h1.1, h1.2.1, h1.2.2.1, h2.1, h2.2.1, h2.2.2.1, h2.2.2.2⟩
  · rw [if_neg hd] at h1
    have h2 := cycle_runForClose D (cycle D s i0) i1 h1.1
    rw [h1.2.2.2, h1.2.2.1, if_neg hle] at h2
    simp only [if_neg hd]
    exact ⟨h1.1, h1.2.1, h1.2.2.1, h2.1, h2.2.1, h2.2.2.1, h2.2.2.2⟩

/-- C9: from any state with mode `ModeDoNothing`, known position, step counter
within budget and door status `DoorStatusClosed` or `DoorStatusopen` (the
three door-status constants being distinct), two successive door-toggle
sequences, each started by the door command of button 1 (in passes 0 and 2)
and run until the mode is `ModeDoNothing` again (after passes 1 and 3, whatever
these passes read), toggle the door status and then restore it;
`positionKnown` is true in every state of the run, and the door status is
`DoorStatusUnkonwn` only in states whose mode is `ModeRunForOpen` or
`ModeRunForClose`. -/
theorem door_round_trip (D : DoorStatusDecl) (s : State) (inputs : Nat → Input)
    (hD : D.Distinct)
    (hm : s.mode = ModeDoNothing) (hp : s.positionKnown = true)
    (ht : s.timerCount ≤ MAX_TIMER_COUNT)
    (hd : s.doorStatus = D.DoorStatusClosed ∨ s.doorStatus = D.DoorStatusopen)
    (h0 : toggleStarts s (inputs 0))
    (h2 : toggleStarts (run D s inputs 2) (inputs 2)) :
    (run D s inputs 2).mode = ModeDoNothing ∧
    (run D s inputs 2).doorStatus ≠ s.doorStatus ∧
    ((run D s inputs 2).doorStatus = D.DoorStatusClosed ∨
      (run D s inputs 2).doorStatus = D.DoorStatusopen) ∧
    (run D s inputs 4).mode = ModeDoNothing ∧
    (run D s inputs 4).doorStatus = s.doorStatus ∧
    (∀ n, n ≤ 4 → (run D s inputs n).positionKnown = true) ∧
    (∀ n, n ≤ 4 → (run D s inputs n).doorStatus = D.DoorStatusUnkonwn →
      (run D s inputs n).mode = ModeRunForOpen ∨
        (run D s inputs n).mode = ModeRunForClose) := by
  obtain ⟨hco, hcu, hou⟩ := hD
  have a := toggle_two_passes D s (inputs 0) (inputs 1) hm hp ht h0
  have e1 : run D s inputs 1 = cycle D s (inputs 0) := rfl
  have e2 : run D s inputs 2 = cycle D (run D s inputs 1) (inputs 1) := rfl
  have e3 : run D s inputs 3 = cycle D (run D s inputs 2) (inputs 2) := rfl
  have e4 : run D s inputs 4 = cycle D (run D s inputs 3) (inputs 3) := rfl
  rw [← e1, ← e2] at a
  obtain ⟨a1, a2, a3, a4, a5, a6, a7⟩ := a
  have b := toggle_two_passes D (run D s inputs 2) (inputs 2) (inputs 3) a4 a6
    (by rw [a7]; exact ht) h2
  rw [← e3, ← e4] at b
  obtain ⟨b1, b2, b3, b4, b5, b6, _⟩ := b
  have hd2 : (run D s inputs 2).doorStatus ≠ s.doorStatus ∧
      ((run D s inputs 2).doorStatus = D.DoorStatusClosed ∨
        (run D s inputs 2).doorStatus = D.DoorStatusopen) ∧
      (run D s inputs 4).doorStatus = s.doorStatus := by
    rw [b5, a5]
    rcases hd with hd | hd
    · rw [if_pos hd, if_neg (fun h => hco h.symm), hd]
      exact ⟨fun h => hco h.symm, Or.inr rfl, rfl⟩
    · have hne : s.doorStatus ≠ D.DoorStatusClosed := by rw [hd]; exact fun h => hco h.symm
      rw [if_neg hne, if_pos rfl, hd]
      exact ⟨hco, Or.inl rfl, rfl⟩
  have hmode1 : (run D s inputs 1).mode = ModeRunForOpen ∨
      (run D s inputs 1).mode = ModeRunForClose := by
    rw [a1]; split_ifs <;> simp
  have hmode3 : (run D s inputs 3).mode = ModeRunForOpen ∨
      (run D s inputs 3).mode = ModeRunForClose := by
    rw [b1]; split_ifs <;> simp
  refine ⟨a4, hd2.1, hd2.2.1, b4, hd2.2.2, ?_, ?_⟩
  · intro n hn
    interval_cases n
    · exact hp
    · exact a3
    · exact a6
    · exact b3
    · exact b6
  · intro n hn hu
    interval_cases n
    · exfalso
      have hs : run D s inputs 0 = s := rfl
      rw [hs] at hu
      rcases hd with hd | hd
      · exact hcu (hd.symm.trans hu)
      · exact hou (hd.symm.trans hu)
    · exact hmode1
    · exfalso
      rcases hd2.2.1 with hd | hd
      · exact hcu (hd.symm.trans hu)
      · exact hou (hd.symm.trans hu)
    · exact hmode3
    · exfalso
      rw [hd2.2.2] at hu
      rcases hd with hd | hd
      · exact hcu (hd.symm.trans hu)
      · exact hou (hd.symm.trans hu)

/-- C9, witness: from the closed-door idle state, button 1 pressed in passes 0
and 2 and released in passes 1 and 3; the door is open after pass 1 and closed
again after pass 3. -/
theorem door_round_trip_witness :
    sampleDecl.Distinct ∧ idleClosedState.mode = ModeDoNothing ∧
    idleClosedState.positionKnown = true ∧
    idleClosedState.doorStatus = sampleDecl.DoorStatusClosed ∧
    toggleStarts idleClosedState (toggleRun 0) ∧
    toggleStarts (run sampleDecl idleClosedState toggleRun 2) (toggleRun 2) ∧
    (run sampleDecl idleClosedState toggleRun 2).doorStatus ≠ idleClosedState.doorStatus ∧
    (run sampleDecl idleClosedState toggleRun 4).mode = ModeDoNothing ∧
    (run sampleDecl idleClosedState toggleRun 4).doorStatus = idleClosedState.doorStatus :=
  have h := door_round_trip sampleDecl idleClosedState toggleRun (by decide) rfl rfl
    (by decide) (Or.inl rfl) (by decide) (by decide)
  ⟨by decide, rfl, rfl, rfl, by decide, by decide, h.2.1, h.2.2.2.1, h.2.2.2.2.1⟩

/-! ## Claim C10: how `ModeError` is entered -/

/-- The alarm check and `handleButtons` never assign `ModeError`. -/
theorem beforeModes_error (D : DoorStatusDecl) (s : State) (i : Input)
    (h : (beforeModes D s i).mode = ModeError) : s.mode = ModeError := by
  rw [beforeModes_mode] at h
  unfold doorCommandTarget at h
  split_ifs at h
  exact h

/-- The switch of `handleModes` never assigns `ModeError`. -/
theorem modeSwitch_error (D : DoorStatusDecl) (s : State) (i : Input)
    (h : (modeSwitch D s i).1.mode = ModeError) : s.mode = ModeError := by
  unfold modeSwitch at h
  cases hm : s.mode <;> rw [hm] at h <;>
    simp [handleModeInitPos, handleModeRunForOpen, handleModeRunForClose,
      handleModeDisplayClosing, handleModeDisplayOpening, hm] at h
  · split_ifs at h
  · split_ifs at h
    simp_all

/-- C10: for every state and input, if the mode is not `ModeError` before a
pass of `loop()` and is `ModeError` after it, then the step counter at the end
of that pass is greater than `MAX_TIMER_COUNT`. -/
theorem error_only_from_exceeded_budget (D : DoorStatusDecl) (s : State) (i : Input)
    (hbefore : s.mode ≠ ModeError) (hafter : (cycle D s i).mode = ModeError) :
    (cycle D s i).timerCount > MAX_TIMER_COUNT := by
  rw [cycle_mode] at hafter
  rw [cycle_timerCount]
  by_contra hle
  rw [if_neg hle] at hafter
  exact hbefore (beforeModes_error D s i (modeSwitch_error D _ i hafter))

/-- C10, witness: the last homing sweep without a stop signal takes the mode
from `ModeInitPos` to `ModeError`, and the counter is then 51. -/
theorem error_only_from_exceeded_budget_witness :
    lastSweepState.mode ≠ ModeError ∧
    (cycle sampleDecl lastSweepState (quietInput 12 0 30)).mode = ModeError ∧
    (cycle sampleDecl lastSweepState (quietInput 12 0 30)).timerCount > MAX_TIMER_COUNT :=
  have hafter : (cycle sampleDecl lastSweepState (quietInput 12 0 30)).mode = ModeError := by
    rw [(cycle_initPos_sweep sampleDecl lastSweepState (quietInput 12 0 30) rfl rfl).1]
    decide
  ⟨by decide, hafter,
    error_only_from_exceeded_budget sampleDecl lastSweepState (quietInput 12 0 30)
      (by decide) hafter⟩

/-! ## Claim C11: the focus rotation -/

/-- In a run of `handleButtons` that starts with one of the three foci, the
focus is the starting focus advanced once per button-3 press, modulo 3. -/
theorem buttonsRun_focus (D : DoorStatusDecl) (s : State) (inputs : Nat → Input)
    (h0 : 0 ≤ s.buttonStatus) (h3 : s.buttonStatus < 3) (n : Nat) :
    (buttonsRun D s inputs n).buttonStatus =
      (s.buttonStatus + (button3Presses D s inputs n : Int)) % 3 := by
  induction n with
  | zero =>
    simp only [buttonsRun, button3Presses, Nat.cast_zero, add_zero]
    omega
  | succ n ih =>
    simp only [buttonsRun, button3Presses, handleButtons_buttonStatus, focusAfter3]
    by_cases he : button3Edge (buttonsRun D s inputs n) (inputs n)
    · simp only [he, if_true]
      rw [Int.tmod_eq_emod (by rw [ih]; omega) (by decide), ih]
      push_cast
      omega
    · simp only [he, if_false, ih, Nat.add_zero]

/-- C11: a rising edge on button 3 makes `handleButtons` map the focus
`ButtonStatusOpenClose` to `ButtonStatusSetTime`, `ButtonStatusSetTime` to
`ButtonStatusSetAlarm` and `ButtonStatusSetAlarm` to `ButtonStatusOpenClose`;
and for every starting focus, in any run of the button-handling step, the focus
is back at its starting value after three button-3 presses and is different
from it after one or two. -/
theorem focus_rotation (D : DoorStatusDecl) (s : State) (inputs : Nat → Input)
    (hfocus : s.buttonStatus = ButtonStatusOpenClose ∨ s.buttonStatus = ButtonStatusSetTime ∨
      s.buttonStatus = ButtonStatusSetAlarm) :
    (∀ i, button3Edge s i →
      (s.buttonStatus = ButtonStatusOpenClose →
        (handleButtons D s i).1.buttonStatus = ButtonStatusSetTime) ∧
      (s.buttonStatus = ButtonStatusSetTime →
        (handleButtons D s i).1.buttonStatus = ButtonStatusSetAlarm) ∧
      (s.buttonStatus = ButtonStatusSetAlarm →
        (handleButtons D s i).1.buttonStatus = ButtonStatusOpenClose)) ∧
    (∀ n, button3Presses D s inputs n = 3 →
      (buttonsRun D s inputs n).buttonStatus = s.buttonStatus) ∧
    (∀ n, button3Presses D s inputs n = 1 ∨ button3Presses D s inputs n = 2 →
      (buttonsRun D s inputs n).buttonStatus ≠ s.buttonStatus) := by
  simp only [ButtonStatusOpenClose, ButtonStatusSetTime, ButtonStatusSetAlarm] at hfocus ⊢
  have h0 : 0 ≤ s.buttonStatus := by omega
  have h3 : s.buttonStatus < 3 := by omega
  refine ⟨?_, ?_, ?_⟩
  · intro i he
    simp only [handleButtons_buttonStatus, focusAfter3, he, if_true]
    refine ⟨?_, ?_, ?_⟩ <;> intro h <;> rw [h] <;> decide
  · intro n hn
    rw [buttonsRun_focus D s inputs h0 h3 n, hn]
    push_cast
    omega
  · intro n hn
    rw [buttonsRun_focus D s inputs h0 h3 n]
    rcases hn with hn | hn <;> rw [hn] <;> push_cast <;> omega

/-- C11, witness: from the power-on state (focus `ButtonStatusOpenClose`),
pressing button 3 in calls 0, 2 and 4: the focus is `ButtonStatusSetTime` after
one press, `ButtonStatusSetAlarm` after two and `ButtonStatusOpenClose` again
after three. -/
theorem focus_rotation_witness :
    initState.buttonStatus = ButtonStatusOpenClose ∧
    button3Presses sampleDecl initState press3Run 5 = 3 ∧
    (buttonsRun sampleDecl initState press3Run 1).buttonStatus = ButtonStatusSetTime ∧
    (buttonsRun sampleDecl initState press3Run 3).buttonStatus = ButtonStatusSetAlarm ∧
    (buttonsRun sampleDecl initState press3Run 5).buttonStatus = initState.buttonStatus :=
  ⟨rfl, by decide, by decide, by decide,
    (focus_rotation sampleDecl initState press3Run (Or.inl rfl)).2.1 5 (by decide)⟩

/-- In the full pass the focus at the end is the one left by the button-3
block, unless `handleModes` is entered in `ModeTimeForFood`, whose handler
resets the focus to `ButtonStatusOpenClose`. -/
theorem cycle_focus (D : DoorStatusDecl) (s : State) (i : Input) :
    (cycle D s i).buttonStatus =
      (if (beforeModes D s i).mode = ModeTimeForFood then ButtonStatusOpenClose
       else focusAfter3 s i) := by
  rw [cycle_buttonStatus]
  by_cases h : (beforeModes D s i).mode = ModeTimeForFood
  · rw [modeSwitch_timeForFood D _ i h, if_pos h]
  · rw [if_neg h, ← beforeModes_buttonStatus D s i]
    generalize beforeModes D s i = t at h ⊢
    unfold modeSwitch
    cases hm : t.mode <;>
      simp [handleModeInitPos, handleModeRunForOpen, handleModeRunForClose,
        handleModeDisplayClosing, handleModeDisplayOpening, hm] at h ⊢
    split_ifs <;> rfl

/-! ## Claim C12: the effect of button 2 -/

/-- The level of button 2 has no influence on the mode and the door status at
the end of a pass. -/
theorem cycle_mode_door_without_button2 (D : DoorStatusDecl) (s : State) (i : Input) :
    (cycle D s i).mode = (cycle D s { i with buttonState2 := false }).mode ∧
    (cycle D s i).doorStatus = (cycle D s { i with buttonState2 := false }).doorStatus := by
  have e : (beforeModes D s i).mode =
      (beforeModes D s { i with buttonState2 := false }).mode := by
    rw [beforeModes_mode, beforeModes_mode]
    rfl
  have c := modeSwitch_congr D (beforeModes D s i)
    (beforeModes D s { i with buttonState2 := false }) i { i with buttonState2 := false } e
    (by rw [beforeModes_doorStatus, beforeModes_doorStatus])
    (by rw [beforeModes_timerCount, beforeModes_timerCount]) rfl
  rw [cycle_mode, cycle_mode, cycle_doorStatus, cycle_doorStatus, c.1, c.2.1, c.2.2]
  exact ⟨rfl, rfl⟩

/-- C12: for every state, a rising edge on button 2 in a pass in which neither
button 1 nor button 3 has a rising edge has this effect, by focus.  In
`SetAlarm` the alarm minute becomes `(alarmMin + 10) % 60` (the C remainder,
which is the mathematical one for a non-negative minute), the alarm hour is
unchanged and the RTC is not written.  In `SetClock` exactly one time is
written to the RTC, with the hour just read, minute (minute just read + 1) mod
60 and second 0, and the alarm is unchanged.  In `DoorCommand` the alarm is
unchanged, the RTC is not written, and the mode and the door status at the end
of the pass are what they are without the press (in particular unchanged from
`ModeDoNothing` when the alarm is not due and the counter is within budget). -/
theorem button2_effect (D : DoorStatusDecl) (s : State) (i : Input)
    (h2 : button2Edge s i) (h1 : ¬ button1Edge s i) (h3 : ¬ button3Edge s i) :
    (s.buttonStatus = ButtonStatusSetAlarm →
      (cycle D s i).alarmMin = Int.tmod (s.alarmMin + 10) 60 ∧
      (0 ≤ s.alarmMin → (cycle D s i).alarmMin = (s.alarmMin + 10) % 60) ∧
      (cycle D s i).alarmHr = s.alarmHr ∧
      rtcWrites (loop D s i).2 = []) ∧
    (s.buttonStatus = ButtonStatusSetTime →
      rtcWrites (loop D s i).2 =
        [((i.now.Hour : Int), ((i.now.Minute : Int) + 1) % 60, (0 : Int))] ∧
      (cycle D s i).alarmHr = s.alarmHr ∧ (cycle D s i).alarmMin = s.alarmMin) ∧
    (s.buttonStatus = ButtonStatusOpenClose →
      (cycle D s i).alarmHr = s.alarmHr ∧ (cycle D s i).alarmMin = s.alarmMin ∧
      rtcWrites (loop D s i).2 = [] ∧
      (cycle D s i).mode = (cycle D s { i with buttonState2 := false }).mode ∧
      (cycle D s i).doorStatus = (cycle D s { i with buttonState2 := false }).doorStatus ∧
      (s.mode = ModeDoNothing → ¬ alarmDue s i.now → s.timerCount ≤ MAX_TIMER_COUNT →
        (cycle D s i).mode = s.mode ∧ (cycle D s i).doorStatus = s.doorStatus)) := by
  have hf : focusAfter3 s i = s.buttonStatus := by
    simp only [focusAfter3, h3, if_false]
  refine ⟨?_, ?_, ?_⟩
  · intro hb
    have hmin : (cycle D s i).alarmMin = Int.tmod (s.alarmMin + 10) 60 := by
      rw [cycle_alarmMin, hf, if_pos ⟨h2, hb⟩]
    refine ⟨hmin, ?_, ?_, ?_⟩
    · intro hpos
      rw [hmin, Int.tmod_eq_emod (by omega) (by decide)]
    · rw [cycle_alarmHr, if_neg (fun h => h1 h.1)]
    · have n2 : ¬ (button2Edge s i ∧ ButtonStatusSetAlarm = ButtonStatusSetTime) :=
        fun h => by simp [ButtonStatusSetAlarm, ButtonStatusSetTime] at h
      rw [loop_rtcWrites, hf, hb, if_neg n2, if_neg (fun h => h1 h.1)]
      rfl
  · intro hb
    refine ⟨?_, ?_, ?_⟩
    · rw [loop_rtcWrites, hf, if_pos ⟨h2, hb⟩, if_neg (fun h => h1 h.1),
        Int.tmod_eq_emod (by omega) (by decide)]
      rfl
    · rw [cycle_alarmHr, if_neg (fun h => h1 h.1)]
    · rw [cycle_alarmMin, hf, hb, if_neg]
      simp [ButtonStatusSetAlarm, ButtonStatusSetTime]
  · intro hb
    have hc := cycle_mode_door_without_button2 D s i
    refine ⟨?_, ?_, ?_, hc.1, hc.2, ?_⟩
    · rw [cycle_alarmHr, if_neg (fun h => h1 h.1)]
    · rw [cycle_alarmMin, hf, hb, if_neg]
      simp [ButtonStatusSetAlarm, ButtonStatusOpenClose]
    · have n2 : ¬ (button2Edge s i ∧ ButtonStatusOpenClose = ButtonStatusSetTime) :=
        fun h => by simp [ButtonStatusOpenClose, ButtonStatusSetTime] at h
      rw [loop_rtcWrites, hf, hb, if_neg n2, if_neg (fun h => h1 h.1)]
      rfl
    · intro hm hno ht
      have hbm : (beforeModes D s i).mode = ModeDoNothing := by
        rw [beforeModes_mode, if_neg hno, if_neg (fun h => h1 h.1), if_neg, hm]
        simp [hm]
      have hle : ¬ s.timerCount > MAX_TIMER_COUNT := not_lt.mpr ht
      rw [cycle_mode, cycle_doorStatus, modeSwitch_default D _ i (Or.inl hbm), hbm,
        beforeModes_timerCount, beforeModes_doorStatus, if_neg hle, hm]
      exact ⟨rfl, rfl⟩

/-- C12, witness: focus `SetAlarm`, alarm 00:55, only button 2 pressed: the
alarm minute becomes 5 and nothing is written to the RTC. -/
theorem button2_effect_witness :
    button2Edge setAlarmState press2Input ∧ ¬ button1Edge setAlarmState press2Input ∧
    ¬ button3Edge setAlarmState press2Input ∧
    setAlarmState.buttonStatus = ButtonStatusSetAlarm ∧
    (cycle sampleDecl setAlarmState press2Input).alarmMin = (55 + 10) % 60 ∧
    rtcWrites (loop sampleDecl setAlarmState press2Input).2 = [] :=
  have h := (button2_effect sampleDecl setAlarmState press2Input (by decide) (by decide)
    (by decide)).1 rfl
  ⟨by decide, by decide, by decide, rfl, h.2.1 (by decide), h.2.2.2⟩

/-! ## Claim C13: buttons 1 and 2 rising in the same pass -/

/-- C13, the code at the claim: with focus `SetClock` and clock reading
`(h, m)`, a pass in which buttons 1 and 2 both have a rising edge and button 3
has none writes the RTC twice: first `(h, (m + 1) mod 60, 0)` from the button-2
block, then `((h + 1) mod 24, m, 0)` from the button-1 block, which passes
`now.Minute()` and not the `clockMin` just advanced.  The time the RTC is left
with is the second one: the hour is advanced, the minute is not. -/
theorem both_increments_second_write_wins (D : DoorStatusDecl) (s : State) (i : Input)
    (hfocus : s.buttonStatus = ButtonStatusSetTime)
    (h1 : button1Edge s i) (h2 : button2Edge s i) (h3 : ¬ button3Edge s i) :
    rtcWrites (loop D s i).2 =
      [((i.now.Hour : Int), ((i.now.Minute : Int) + 1) % 60, (0 : Int)),
       (((i.now.Hour : Int) + 1) % 24, (i.now.Minute : Int), (0 : Int))] ∧
    (rtcWrites (loop D s i).2).getLast? =
      some (((i.now.Hour : Int) + 1) % 24, (i.now.Minute : Int), (0 : Int)) := by
  have hf : focusAfter3 s i = ButtonStatusSetTime := by
    simp only [focusAfter3, h3, if_false, hfocus]
  have hw : rtcWrites (loop D s i).2 =
      [((i.now.Hour : Int), ((i.now.Minute : Int) + 1) % 60, (0 : Int)),
       (((i.now.Hour : Int) + 1) % 24, (i.now.Minute : Int), (0 : Int))] := by
    rw [loop_rtcWrites, if_pos ⟨h2, hf⟩, if_pos ⟨h1, hf⟩,
      Int.tmod_eq_emod (by omega) (by decide), Int.tmod_eq_emod (by omega) (by decide)]
    rfl
  refine ⟨hw, ?_⟩
  rw [hw]
  rfl

/-- C13, at the failing input: focus `SetClock`, clock reading 12:00:30,
buttons 1 and 2 pressed together; the RTC is written with 12:01:00 and then
with 13:00:00, so it is left at 13:00 and not at 13:01. -/
theorem both_increments_second_write_wins_witness :
    setClockState.buttonStatus = ButtonStatusSetTime ∧
    button1Edge setClockState press12Input ∧ button2Edge setClockState press12Input ∧
    ¬ button3Edge setClockState press12Input ∧
    rtcWrites (loop sampleDecl setClockState press12Input).2 = [(12, 1, 0), (13, 0, 0)] ∧
    (rtcWrites (loop sampleDecl setClockState press12Input).2).getLast? = some (13, 0, 0) :=
  have h := both_increments_second_write_wins sampleDecl setClockState press12Input rfl
    (by decide) (by decide) (by decide)
  ⟨rfl, by decide, by decide, by decide, h.1, h.2⟩

/-! ## Claim C14: the stop line outside homing -/

theorem stopPinBlock_of_not_initPos (s : State) (i : Input) (h : s.mode ≠ ModeInitPos) :
    stopPinBlock s i = (s, []) := by
  unfold stopPinBlock
  rw [if_neg (fun g => h g.2)]

/-- Outside `ModeInitPos` the switch of `handleModes` reads nothing from the
input. -/
theorem modeSwitch_input_irrelevant (D : DoorStatusDecl) (s : State) (i j : Input)
    (h : s.mode ≠ ModeInitPos) : modeSwitch D s i = modeSwitch D s j := by
  unfold modeSwitch
  cases hm : s.mode <;> first | rfl | exact absurd hm h

/-- The three button blocks never produce `ModeInitPos` from another mode. -/
theorem buttonBlocks_mode_ne_initPos (D : DoorStatusDecl) (s : State) (i : Input)
    (h : s.mode ≠ ModeInitPos) :
    (andThen (andThen (button3Block s i) (fun t => button2Block t i))
      (fun t => button1Block D t i)).1.mode ≠ ModeInitPos := by
  simp only [andThen, button3Block_fst, button2Block_fst, button1Block_fst]
  have hne := doorCommandTarget_ne_initPos D s
  unfold doorCommandTarget at hne
  split_ifs <;> simp_all

theorem andThen_congr (r : State × List Effect) (f g : State → State × List Effect)
    (h : f r.1 = g r.1) : andThen r f = andThen r g := by
  unfold andThen
  rw [h]

/-- Outside `ModeInitPos`, `handleButtons` does not depend on the stop line. -/
theorem handleButtons_stop_irrelevant (D : DoorStatusDecl) (s : State) (i : Input)
    (a : Bool) (f : Nat → Bool) (h : s.mode ≠ ModeInitPos) :
    handleButtons D s { i with stopPinState := a, stopPinSweep := f } = handleButtons D s i := by
  have hx := buttonBlocks_mode_ne_initPos D s i h
  show andThen (andThen (andThen (button3Block s i) (fun t => button2Block t i))
      (fun t => button1Block D t i))
        (fun t => stopPinBlock t { i with stopPinState := a, stopPinSweep := f }) =
    andThen (andThen (andThen (button3Block s i) (fun t => button2Block t i))
      (fun t => button1Block D t i)) (fun t => stopPinBlock t i)
  apply andThen_congr
  show stopPinBlock _ _ = stopPinBlock _ _
  rw [stopPinBlock_of_not_initPos _ _ hx, stopPinBlock_of_not_initPos _ _ hx]

/-- Outside `ModeInitPos`, one pass of `loop()` does not depend on the stop
line: neither on the sample taken by `handleButtons` nor on the reads inside
the sweep. -/
theorem loop_stop_irrelevant (D : DoorStatusDecl) (s : State) (i : Input)
    (a : Bool) (f : Nat → Bool) (h : s.mode ≠ ModeInitPos) :
    loop D s { i with stopPinState := a, stopPinSweep := f } = loop D s i := by
  have ha : (andThen (rtcValidCheck s i) (fun t => alarmCheck t i.now)).1.mode ≠
      ModeInitPos := by
    simp only [andThen, rtcValidCheck_fst, alarmCheck_fst]
    split_ifs <;> simp_all
  have hbm : (andThen (andThen (rtcValidCheck s i) (fun t => alarmCheck t i.now))
      (fun t => handleButtons D t i)).1.mode ≠ ModeInitPos := by
    have := beforeModes_mode D s i
    unfold beforeModes at this
    simp only [andThen, rtcValidCheck_fst, this]
    have hne := doorCommandTarget_ne_initPos D s
    split_ifs <;> simp_all
  have e1 : andThen (andThen (rtcValidCheck s i) (fun t => alarmCheck t i.now))
        (fun t => handleButtons D t { i with stopPinState := a, stopPinSweep := f }) =
      andThen (andThen (rtcValidCheck s i) (fun t => alarmCheck t i.now))
        (fun t => handleButtons D t i) :=
    andThen_congr _ _ _ (handleButtons_stop_irrelevant D _ i a f ha)
  have e2 : andThen (andThen (andThen (rtcValidCheck s i) (fun t => alarmCheck t i.now))
        (fun t => handleButtons D t i))
        (fun t => handleModes D t { i with stopPinState := a, stopPinSweep := f }) =
      andThen (andThen (andThen (rtcValidCheck s i) (fun t => alarmCheck t i.now))
        (fun t => handleButtons D t i)) (fun t => handleModes D t i) := by
    apply andThen_congr
    show handleModes D _ _ = handleModes D _ _
    unfold handleModes
    rw [modeSwitch_input_irrelevant D _ { i with stopPinState := a, stopPinSweep := f } i hbm]
  show andThen (andThen (andThen (andThen (rtcValidCheck s i) (fun t => alarmCheck t i.now))
      (fun t => handleButtons D t { i with stopPinState := a, stopPinSweep := f }))
      (fun t => handleModes D t { i with stopPinState := a, stopPinSweep := f }))
      (fun t => updateDisplay t i) = loop D s i
  rw [e1, e2]
  rfl

/-- C14: for every state whose mode at the start of the pass is not
`ModeInitPos`, and for every clock and button input, two passes that differ
only in the stop-line readings (the sample of `handleButtons` and the reads of
the sweep) produce the same next state and the same effects, in particular the
same commands to the stepper. -/
theorem stop_sensor_ignored_outside_homing (D : DoorStatusDecl) (s : State) (i : Input)
    (a : Bool) (f : Nat → Bool) (h : s.mode ≠ ModeInitPos) :
    cycle D s { i with stopPinState := a, stopPinSweep := f } = cycle D s i ∧
    (loop D s { i with stopPinState := a, stopPinSweep := f }).2 = (loop D s i).2 ∧
    actuatorCommands (loop D s { i with stopPinState := a, stopPinSweep := f }).2 =
      actuatorCommands (loop D s i).2 := by
  have e := loop_stop_irrelevant D s i a f h
  unfold cycle
  rw [e]
  exact ⟨rfl, rfl, rfl⟩

/-- C14, witness: in `ModeRunForOpen` the pass with the stop line `HIGH`
throughout issues the same slide command and ends in the same state as the
pass with the stop line `LOW`. -/
theorem stop_sensor_ignored_outside_homing_witness :
    runForOpenState.mode ≠ ModeInitPos ∧
    cycle sampleDecl runForOpenState
        { quietInput 12 0 30 with stopPinState := true, stopPinSweep := fun _ => true } =
      cycle sampleDecl runForOpenState (quietInput 12 0 30) ∧
    actuatorCommands (loop sampleDecl runForOpenState (quietInput 12 0 30)).2 =
      [Effect.stepperMove false slideDistance, Effect.resetStepperPins] :=
  ⟨by decide,
    (stop_sensor_ignored_outside_homing sampleDecl runForOpenState (quietInput 12 0 30) true
      (fun _ => true) (by decide)).1,
    by decide⟩

/-! ## Claim C15: the state at initialisation -/

/-- C15, counterexample to the claim as stated: before the first pass the mode
is `ModeDoNothing` (the initialiser `int mode = 0` is the first enumerator, and
`setup` does not assign `mode`), not `ModeDisplayInit`. -/
theorem initial_mode_counterexample :
    (powerOn 0).mode = ModeDoNothing ∧ (powerOn 0).mode ≠ ModeDisplayInit := by
  decide

/-- C15, as amended: the controller state at initialisation, before the first
pass of `loop()`, has mode `ModeDoNothing`, `positionKnown = false` and door
status 0, which is `DoorStatusUnkonwn` for every declaration of the door-status
constants that gives `DoorStatusUnkonwn` the value 0. -/
theorem initial_state (millis : Nat) :
    (powerOn millis).mode = ModeDoNothing ∧ (powerOn millis).positionKnown = false ∧
    (powerOn millis).doorStatus = 0 ∧
    (∀ D : DoorStatusDecl, D.DoorStatusUnkonwn = 0 →
      (powerOn millis).doorStatus = D.DoorStatusUnkonwn) ∧
    (powerOn millis).timerCount = 0 ∧
    (powerOn millis).buttonStatus = ButtonStatusOpenClose ∧
    (powerOn millis).alarmHr = 0 ∧ (powerOn millis).alarmMin = 0 :=
  ⟨rfl, rfl, rfl, fun _ h => h.symm, rfl, rfl, rfl, rfl⟩

/-! ## Claim C16: the alarm time stays a wall-clock pair -/

theorem cycle_alarmValid (D : DoorStatusDecl) (s : State) (i : Input) (h : alarmValid s) :
    alarmValid (cycle D s i) := by
  obtain ⟨h1, h2, h3, h4⟩ := h
  unfold alarmValid
  rw [cycle_alarmHr, cycle_alarmMin]
  have e1 : Int.tmod (s.alarmHr + 1) 24 = (s.alarmHr + 1) % 24 :=
    Int.tmod_eq_emod (by omega) (by decide)
  have e2 : Int.tmod (s.alarmMin + 10) 60 = (s.alarmMin + 10) % 60 :=
    Int.tmod_eq_emod (by omega) (by decide)
  rw [e1, e2]
  refine ⟨?_, ?_, ?_, ?_⟩ <;> split_ifs <;> omega

theorem run_alarmValid (D : DoorStatusDecl) (s : State) (inputs : Nat → Input)
    (h : alarmValid s) (n : Nat) : alarmValid (run D s inputs n) := by
  induction n with
  | zero => exact h
  | succ n ih => exact cycle_alarmValid D _ _ ih

/-- C16: if the alarm hour is in 0..23 and the alarm minute in 0..59 before a
pass of `loop()`, the same bounds hold after it, for every input; hence they
hold in every state of every run from such a state, in particular in every
state reachable from an alarm time of 00:00 and from the power-on state. -/
theorem alarm_time_stays_valid (D : DoorStatusDecl) (s : State) (h : alarmValid s) :
    (∀ i, alarmValid (cycle D s i)) ∧
    (∀ inputs n, alarmValid (run D s inputs n)) ∧
    (∀ t : State, t.alarmHr = 0 → t.alarmMin = 0 →
      ∀ inputs n, alarmValid (run D t inputs n)) ∧
    (∀ millis inputs n, alarmValid (run D (powerOn millis) inputs n)) := by
  have hv : ∀ t : State, t.alarmHr = 0 → t.alarmMin = 0 → alarmValid t := by
    intro t h1 h2
    unfold alarmValid
    rw [h1, h2]
    decide
  refine ⟨fun i => cycle_alarmValid D s i h, fun inputs n => run_alarmValid D s inputs h n,
    ?_, ?_⟩
  · intro t h1 h2 inputs n
    exact run_alarmValid D t inputs (hv t h1 h2) n
  · intro millis inputs n
    exact run_alarmValid D _ inputs (hv (powerOn millis) rfl rfl) n

/-- C16, witness: alarm 00:55 with focus `SetAlarm`; after button 2 is pressed
the alarm time is still a wall-clock pair. -/
theorem alarm_time_stays_valid_witness :
    alarmValid setAlarmState ∧ alarmValid (cycle sampleDecl setAlarmState press2Input) :=
  ⟨by decide, (alarm_time_stays_valid sampleDecl setAlarmState (by decide)).1 press2Input⟩

/-! ## Claim C17: the homing modes cannot be entered -/

/-- The switch leaves a homing mode only if it was entered in `ModeInitPos`. -/
theorem modeSwitch_homing (D : DoorStatusDecl) (s : State) (i : Input)
    (h : (modeSwitch D s i).1.mode = ModeInitPos ∨
      (modeSwitch D s i).1.mode = ModeInitPosAchieved) : s.mode = ModeInitPos := by
  unfold modeSwitch at h
  cases hm : s.mode <;> rw [hm] at h <;>
    simp [handleModeRunForOpen, handleModeRunForClose, handleModeDisplayClosing,
      handleModeDisplayOpening, hm] at h
  split_ifs at h <;> simp_all

/-- The alarm check and `handleButtons` enter a homing mode only from
`ModeInitPos`, or keep `ModeInitPosAchieved`. -/
theorem beforeModes_homing (D : DoorStatusDecl) (s : State) (i : Input)
    (h : (beforeModes D s i).mode = ModeInitPos ∨
      (beforeModes D s i).mode = ModeInitPosAchieved) :
    s.mode = ModeInitPos ∨ s.mode = ModeInitPosAchieved := by
  rw [beforeModes_mode] at h
  unfold doorCommandTarget at h
  split_ifs at h <;> simp_all

/-- A pass that starts outside the two homing modes ends outside them, with
`positionKnown` and the step counter unchanged. -/
theorem cycle_no_homing (D : DoorStatusDecl) (s : State) (i : Input)
    (h1 : s.mode ≠ ModeInitPos) (h2 : s.mode ≠ ModeInitPosAchieved) :
    (beforeModes D s i).mode ≠ ModeInitPos ∧
    (beforeModes D s i).mode ≠ ModeInitPosAchieved ∧
    (cycle D s i).mode ≠ ModeInitPos ∧ (cycle D s i).mode ≠ ModeInitPosAchieved ∧
    (cycle D s i).positionKnown = s.positionKnown ∧
    (cycle D s i).timerCount = s.timerCount := by
  have hb1 : (beforeModes D s i).mode ≠ ModeInitPos := fun h =>
    (beforeModes_homing D s i (Or.inl h)).elim h1 h2
  have hb2 : (beforeModes D s i).mode ≠ ModeInitPosAchieved := fun h =>
    (beforeModes_homing D s i (Or.inr h)).elim h1 h2
  refine ⟨hb1, hb2, ?_, ?_, ?_, ?_⟩
  · rw [cycle_mode]
    split_ifs
    · simp
    · exact fun h => hb1 (modeSwitch_homing D _ i (Or.inl h))
  · rw [cycle_mode]
    split_ifs
    · simp
    · exact fun h => hb1 (modeSwitch_homing D _ i (Or.inr h))
  · rw [cycle_positionKnown, modeSwitch_positionKnown, if_neg hb2, beforeModes_positionKnown]
  · rw [cycle_timerCount, modeSwitch_timerCount, if_neg hb1, if_neg hb2, beforeModes_timerCount]

theorem run_no_homing (D : DoorStatusDecl) (s : State) (inputs : Nat → Input)
    (h1 : s.mode ≠ ModeInitPos) (h2 : s.mode ≠ ModeInitPosAchieved) (n : Nat) :
    (run D s inputs n).mode ≠ ModeInitPos ∧ (run D s inputs n).mode ≠ ModeInitPosAchieved ∧
    (run D s inputs n).positionKnown = s.positionKnown ∧
    (run D s inputs n).timerCount = s.timerCount := by
  induction n with
  | zero => exact ⟨h1, h2, rfl, rfl⟩
  | succ n ih =>
    have c := cycle_no_homing D (run D s inputs n) (inputs n) ih.1 ih.2.1
    exact ⟨c.2.2.1, c.2.2.2.1, c.2.2.2.2.1.trans ih.2.2.1, c.2.2.2.2.2.trans ih.2.2.2⟩

/-- A pass ends in `ModeInitPos` only if it started there. -/
theorem cycle_initPos_only_from_initPos (D : DoorStatusDecl) (s : State) (i : Input)
    (h : (cycle D s i).mode = ModeInitPos) : s.mode = ModeInitPos := by
  rw [cycle_mode] at h
  split_ifs at h
  have hb := modeSwitch_homing D _ i (Or.inl h)
  rw [beforeModes_mode] at hb
  have hne := doorCommandTarget_ne_initPos D s
  split_ifs at hb <;> simp_all

/-- C17: in every state reachable from the power-on state by any sequence of
passes and inputs, the mode is neither `ModeInitPos` nor `ModeInitPosAchieved`,
`positionKnown` is false and the step counter is 0.  No pass ends in
`ModeInitPos` unless it started there (no statement assigns it), and
`ModeDisplayInit` has no successor: from it every pass with the counter within
budget, so every pass in a reachable state, ends in `ModeDisplayInit`. -/
theorem homing_unreachable (D : DoorStatusDecl) (millis : Nat) (inputs : Nat → Input)
    (n : Nat) :
    (run D (powerOn millis) inputs n).mode ≠ ModeInitPos ∧
    (run D (powerOn millis) inputs n).mode ≠ ModeInitPosAchieved ∧
    (run D (powerOn millis) inputs n).positionKnown = false ∧
    (run D (powerOn millis) inputs n).timerCount = 0 ∧
    (∀ s i, (cycle D s i).mode = ModeInitPos → s.mode = ModeInitPos) ∧
    (∀ s i, s.mode = ModeDisplayInit → s.timerCount ≤ MAX_TIMER_COUNT →
      (cycle D s i).mode = ModeDisplayInit) ∧
    ((run D (powerOn millis) inputs n).mode = ModeDisplayInit →
      ∀ i, (cycle D (run D (powerOn millis) inputs n) i).mode = ModeDisplayInit) := by
  have hr := run_no_homing D (powerOn millis) inputs
    (by show ModeDoNothing ≠ ModeInitPos; decide)
    (by show ModeDoNothing ≠ ModeInitPosAchieved; decide) n
  have hstay : ∀ s i, s.mode = ModeDisplayInit → s.timerCount ≤ MAX_TIMER_COUNT →
      (cycle D s i).mode = ModeDisplayInit := by
    intro s i hm ht
    rw [cycle_displayInit D s i hm, if_neg (not_lt.mpr ht)]
  refine ⟨hr.1, hr.2.1, hr.2.2.1, hr.2.2.2, cycle_initPos_only_from_initPos D, hstay, ?_⟩
  intro hm i
  exact hstay _ i hm (by rw [hr.2.2.2]; show (0 : Int) ≤ MAX_TIMER_COUNT; decide)

/-! ## Claim C18: `ModeDisplayOpening` with the door not closed -/

theorem actuatorCommands_handleButtons (D : DoorStatusDecl) (s : State) (i : Input) :
    actuatorCommands (handleButtons D s i).2 = [] := by
  rw [handleButtons_snd]
  split_ifs <;> simp [actuatorCommands, Effect.isActuatorCommand]

theorem actuatorCommands_alarmCheck (s : State) (now : RtcDateTime) :
    actuatorCommands (alarmCheck s now).2 = [] := by
  by_cases h : (s.mode = ModeDoNothing ∨ s.mode = ModeError) ∧ (now.Hour : Int) = s.alarmHr ∧
      (now.Minute : Int) = s.alarmMin ∧ now.Second = 0 <;>
    simp [alarmCheck, h, actuatorCommands, Effect.isActuatorCommand]

theorem actuatorCommands_rtcValidCheck (s : State) (i : Input) :
    actuatorCommands (rtcValidCheck s i).2 = [] := by
  unfold rtcValidCheck
  split_ifs <;> simp [actuatorCommands, Effect.isActuatorCommand]

theorem actuatorCommands_updateDisplay (s : State) (i : Input) :
    actuatorCommands (updateDisplay s i).2 = [] := by
  by_cases h : s.screenBlankDelayCount < SCREEN_BLANK_DELAY
  · simp [updateDisplay, h, actuatorCommands, Effect.isActuatorCommand]
  · by_cases h2 : s.screenBlankEffectDelay + 1 = SCREEN_BLANK_EFFECT_DELAY <;>
      simp [updateDisplay, h, h2, actuatorCommands, Effect.isActuatorCommand]

/-- The commands to the stepper in one pass are those of the mode handler. -/
theorem loop_actuatorCommands (D : DoorStatusDecl) (s : State) (i : Input) :
    actuatorCommands (loop D s i).2 =
      actuatorCommands (modeSwitch D (beforeModes D s i) i).2 := by
  rw [loop_snd]
  simp only [actuatorCommands_append, actuatorCommands_rtcValidCheck,
    actuatorCommands_alarmCheck, actuatorCommands_handleButtons,
    actuatorCommands_updateDisplay, List.nil_append, List.append_nil]

/-- One pass in the trap: the mode, the door status and the counter stay, the
alarm check does not fire, the door command is not executed and the stepper
gets no command. -/
theorem cycle_trap (D : DoorStatusDecl) (s : State) (i : Input)
    (hm : s.mode = ModeDisplayOpening) (hd : s.doorStatus ≠ D.DoorStatusClosed)
    (ht : s.timerCount ≤ MAX_TIMER_COUNT) :
    (cycle D s i).mode = ModeDisplayOpening ∧ (cycle D s i).doorStatus = s.doorStatus ∧
    (cycle D s i).timerCount = s.timerCount ∧
    ¬ alarmDue s i.now ∧ ¬ toggleStarts s i ∧
    Effect.serialPrintln "ALARM TRIGGERED" ∉ (loop D s i).2 ∧
    actuatorCommands (loop D s i).2 = [] := by
  have hc := cycle_displayOpening_not_closed D s i hm hd
  rw [if_neg (not_lt.mpr ht)] at hc
  have hno : ¬ alarmDue s i.now := by
    unfold alarmDue
    simp [hm]
  have hb : (beforeModes D s i).mode = ModeDisplayOpening := by
    rw [beforeModes_mode_of_busy D s i (by simp [hm]) (by simp [hm]) (by simp [hm]), hm]
  refine ⟨hc.1, hc.2.1, hc.2.2.2, hno, ?_, ?_, ?_⟩
  · unfold toggleStarts doorCommandTaken
    rw [(alarmCheck_spec s i.now).2, if_neg hno]
    simp [hm]
  · rw [loop_snd]
    have h1 : Effect.serialPrintln "ALARM TRIGGERED" ∉ (rtcValidCheck s i).2 := by
      unfold rtcValidCheck
      split_ifs <;> simp
    have h2 : Effect.serialPrintln "ALARM TRIGGERED" ∉ (alarmCheck s i.now).2 :=
      fun h => hno ((alarmCheck_spec s i.now).1.1 h)
    have h3 : Effect.serialPrintln "ALARM TRIGGERED" ∉
        (handleButtons D (alarmCheck s i.now).1 i).2 := by
      rw [handleButtons_snd]
      split_ifs <;> simp
    have h4 : (modeSwitch D (beforeModes D s i) i).2 = [] := by
      rw [modeSwitch_displayOpening D _ i hb]
      simp [handleModeDisplayOpening, beforeModes_doorStatus, hd]
    have h5 : Effect.serialPrintln "ALARM TRIGGERED" ∉
        (updateDisplay (handleModes D (beforeModes D s i) i).1 i).2 := by
      generalize (handleModes D (beforeModes D s i) i).1 = u
      by_cases h : u.screenBlankDelayCount < SCREEN_BLANK_DELAY
      · simp [updateDisplay, h]
      · by_cases h2 : u.screenBlankEffectDelay + 1 = SCREEN_BLANK_EFFECT_DELAY <;>
          simp [updateDisplay, h, h2]
    rw [h4]
    simp only [List.mem_append, List.not_mem_nil, or_false, not_or]
    exact ⟨⟨⟨h1, h2⟩, h3⟩, h5⟩
  · rw [loop_actuatorCommands, modeSwitch_displayOpening D _ i hb]
    simp [handleModeDisplayOpening, beforeModes_doorStatus, hd, actuatorCommands]

/-- C18, counterexample to the claim as stated: in the trap (mode
`ModeDisplayOpening`, door open, counter 0) a press of button 3 is still acted
on: the pass ends in `ModeDisplayOpening` with the door status unchanged, but
the focus has moved from `DoorCommand` to `SetClock`. -/
theorem displayOpening_trap_counterexample :
    trapState.mode = ModeDisplayOpening ∧
    trapState.doorStatus ≠ sampleDecl.DoorStatusClosed ∧
    trapState.timerCount ≤ MAX_TIMER_COUNT ∧
    trapState.buttonStatus = ButtonStatusOpenClose ∧
    button3Edge trapState press3Input ∧
    (cycle sampleDecl trapState press3Input).mode = ModeDisplayOpening ∧
    (cycle sampleDecl trapState press3Input).doorStatus = trapState.doorStatus ∧
    (cycle sampleDecl trapState press3Input).buttonStatus = ButtonStatusSetTime := by
  decide

/-- C18, as amended: for every state with mode `ModeDisplayOpening`, door status
different from `DoorStatusClosed` and step counter at most `MAX_TIMER_COUNT`,
every pass of every run, with every input, ends with mode `ModeDisplayOpening`
and the door status unchanged; so in no later pass does the alarm fire or the
door command of button 1 get executed, and no command goes to the stepper.
(Presses that move the focus or set the alarm time or the clock are still
acted on.) -/
theorem displayOpening_trap (D : DoorStatusDecl) (s : State) (inputs : Nat → Input)
    (hm : s.mode = ModeDisplayOpening) (hd : s.doorStatus ≠ D.DoorStatusClosed)
    (ht : s.timerCount ≤ MAX_TIMER_COUNT) (n : Nat) :
    (run D s inputs n).mode = ModeDisplayOpening ∧
    (run D s inputs n).doorStatus = s.doorStatus ∧
    ¬ alarmDue (run D s inputs n) (inputs n).now ∧
    Effect.serialPrintln "ALARM TRIGGERED" ∉ (loop D (run D s inputs n) (inputs n)).2 ∧
    ¬ toggleStarts (run D s inputs n) (inputs n) ∧
    actuatorCommands (loop D (run D s inputs n) (inputs n)).2 = [] := by
  have hinv : (run D s inputs n).mode = ModeDisplayOpening ∧
      (run D s inputs n).doorStatus = s.doorStatus ∧
      (run D s inputs n).timerCount = s.timerCount := by
    induction n with
    | zero => exact ⟨hm, rfl, rfl⟩
    | succ n ih =>
      have c := cycle_trap D (run D s inputs n) (inputs n) ih.1 (by rw [ih.2.1]; exact hd)
        (by rw [ih.2.2]; exact ht)
      exact ⟨c.1, c.2.1.trans ih.2.1, c.2.2.1.trans ih.2.2⟩
  have c := cycle_trap D (run D s inputs n) (inputs n) hinv.1 (by rw [hinv.2.1]; exact hd)
    (by rw [hinv.2.2]; exact ht)
  exact ⟨hinv.1, hinv.2.1, c.2.2.2.1, c.2.2.2.2.2.1, c.2.2.2.2.1, c.2.2.2.2.2.2⟩

/-- C18, witness: from the trap state, with button 1 pressed in every second
pass, the mode is still `ModeDisplayOpening` before pass 6 and that pass sends
nothing to the stepper. -/
theorem displayOpening_trap_witness :
    trapState.mode = ModeDisplayOpening ∧
    trapState.doorStatus ≠ sampleDecl.DoorStatusClosed ∧
    trapState.timerCount ≤ MAX_TIMER_COUNT ∧
    (run sampleDecl trapState toggleRun 6).mode = ModeDisplayOpening ∧
    (run sampleDecl trapState toggleRun 6).doorStatus = trapState.doorStatus ∧
    actuatorCommands (loop sampleDecl (run sampleDecl trapState toggleRun 6) (toggleRun 6)).2 =
      [] :=
  have h := displayOpening_trap sampleDecl trapState toggleRun rfl (by decide) (by decide) 6
  ⟨rfl, by decide, by decide, h.1, h.2.1, h.2.2.2.2.2⟩

/-! ## Claim C19: `ModeError` with the budget exceeded -/

/-- C19: for every state with mode `ModeError` and step counter above
`MAX_TIMER_COUNT`, and for every clock, button and stop-line input, the pass
ends with mode `ModeError` and the counter unchanged, and so does every later
pass.  Outside `ModeInitPosAchieved` the switch of `handleModes` keeps or
increments the counter, never resets it; and `ModeInitPosAchieved` (like
`ModeInitPos`) is not reached from `ModeError`, neither at the end of a pass
nor on entry to `handleModes`. -/
theorem error_absorbing (D : DoorStatusDecl) (s : State) (inputs : Nat → Input)
    (h : s.mode = ModeError) (hcount : s.timerCount > MAX_TIMER_COUNT) :
    (∀ i, (cycle D s i).mode = ModeError ∧ (cycle D s i).timerCount = s.timerCount) ∧
    (∀ n, (run D s inputs n).mode = ModeError ∧
      (run D s inputs n).timerCount = s.timerCount) ∧
    (∀ t i, (beforeModes D t i).mode ≠ ModeInitPosAchieved →
      (cycle D t i).timerCount = t.timerCount ∨
        (cycle D t i).timerCount = t.timerCount + 1) ∧
    (∀ t : State, t.mode = ModeError → ∀ ins n,
      (run D t ins n).mode ≠ ModeInitPosAchieved ∧ (run D t ins n).mode ≠ ModeInitPos ∧
      (beforeModes D (run D t ins n) (ins n)).mode ≠ ModeInitPosAchieved) := by
  refine ⟨fun i => cycle_error_exceeded D s i h hcount, ?_, ?_, ?_⟩
  · intro n
    induction n with
    | zero => exact ⟨h, rfl⟩
    | succ n ih =>
      have c := cycle_error_exceeded D (run D s inputs n) (inputs n) ih.1
        (by rw [ih.2]; exact hcount)
      exact ⟨c.1, c.2.trans ih.2⟩
  · intro t i hb
    rw [cycle_timerCount, modeSwitch_timerCount, if_neg hb, beforeModes_timerCount]
    split_ifs
    · exact Or.inr rfl
    · exact Or.inl rfl
  · intro t ht ins n
    have hr := run_no_homing D t ins (by simp [ht]) (by simp [ht]) n
    exact ⟨hr.2.1, hr.1, (cycle_no_homing D _ (ins n) hr.1 hr.2.1).2.1⟩

/-- C19, witness: the state left by a homing timeout, with button 1 pressed in
every second pass; the mode is `ModeError` and the counter 51 after every
pass, here after pass 7. -/
theorem error_absorbing_witness :
    timedOutState.mode = ModeError ∧ timedOutState.timerCount > MAX_TIMER_COUNT ∧
    (run sampleDecl timedOutState toggleRun 7).mode = ModeError ∧
    (run sampleDecl timedOutState toggleRun 7).timerCount = timedOutState.timerCount :=
  have h := error_absorbing sampleDecl timedOutState toggleRun rfl (by decide)
  ⟨rfl, by decide, (h.2.1 7).1, (h.2.1 7).2⟩

end Gizmo500
